import Mathlib

/-!
Verification of the palletizr packing/layout engine.

The engine (calculator.js and the Layout3D class of the 3D layout module) is a
pure computation over JavaScript numbers.  We embed the relevant routines
shallowly: dimensions and weights become rationals, and every arithmetic
expression of the source is carried out in a type `JSNum` that mirrors the
IEEE-754 special values the source can produce (positive and negative
infinity, NaN) on top of exact rational arithmetic.  Binary rounding of
IEEE doubles is not modelled; no property below depends on it.  The two
zeroes of IEEE-754 are conflated into one, which is harmless here because
every zero the engine produces is a plain 0.
-/

/-- JavaScript number values reachable in the engine: an exact rational,
positive or negative infinity, or NaN. -/
inductive JSNum where
  | num (q : ℚ)
  | inf
  | ninf
  | nan
deriving DecidableEq, Repr

namespace JSNum

/-- IEEE negation. -/
def jneg : JSNum → JSNum
  | num q => num (-q)
  | inf => ninf
  | ninf => inf
  | nan => nan

/-- IEEE addition (without binary rounding). -/
def jadd : JSNum → JSNum → JSNum
  | nan, _ => nan
  | _, nan => nan
  | inf, ninf => nan
  | ninf, inf => nan
  | inf, _ => inf
  | _, inf => inf
  | ninf, _ => ninf
  | _, ninf => ninf
  | num a, num b => num (a + b)

/-- IEEE subtraction, which coincides with adding the negation. -/
def jsub (a b : JSNum) : JSNum := jadd a (jneg b)

/-- IEEE multiplication: infinity times zero is NaN. -/
def jmul : JSNum → JSNum → JSNum
  | nan, _ => nan
  | _, nan => nan
  | num a, num b => num (a * b)
  | inf, num b => if b = 0 then nan else if 0 < b then inf else ninf
  | num a, inf => if a = 0 then nan else if 0 < a then inf else ninf
  | ninf, num b => if b = 0 then nan else if 0 < b then ninf else inf
  | num a, ninf => if a = 0 then nan else if 0 < a then ninf else inf
  | inf, inf => inf
  | inf, ninf => ninf
  | ninf, inf => ninf
  | ninf, ninf => inf

/-- IEEE division: a nonzero value divided by zero is a signed infinity,
zero divided by zero is NaN. -/
def jdiv : JSNum → JSNum → JSNum
  | nan, _ => nan
  | _, nan => nan
  | num a, num b =>
      if b = 0 then (if a = 0 then nan else if 0 < a then inf else ninf)
      else num (a / b)
  | num _, inf => num 0
  | num _, ninf => num 0
  | inf, num b => if 0 ≤ b then inf else ninf
  | ninf, num b => if 0 ≤ b then ninf else inf
  | inf, inf => nan
  | inf, ninf => nan
  | ninf, inf => nan
  | ninf, ninf => nan

/-- Math.floor: identity on infinities and NaN. -/
def jfloor : JSNum → JSNum
  | num q => num (⌊q⌋ : ℤ)
  | x => x

/-- Math.ceil: identity on infinities and NaN. -/
def jceil : JSNum → JSNum
  | num q => num (⌈q⌉ : ℤ)
  | x => x

/-- Math.min: NaN-contaminating. -/
def jmin : JSNum → JSNum → JSNum
  | nan, _ => nan
  | _, nan => nan
  | ninf, _ => ninf
  | _, ninf => ninf
  | inf, b => b
  | a, inf => a
  | num a, num b => num (min a b)

/-- Math.max: NaN-contaminating. -/
def jmax : JSNum → JSNum → JSNum
  | nan, _ => nan
  | _, nan => nan
  | inf, _ => inf
  | _, inf => inf
  | ninf, b => b
  | a, ninf => a
  | num a, num b => num (max a b)

/-- The strict less-than of JavaScript: false whenever NaN is involved. -/
def jlt : JSNum → JSNum → Bool
  | nan, _ => false
  | _, nan => false
  | num a, num b => decide (a < b)
  | ninf, ninf => false
  | ninf, _ => true
  | _, ninf => false
  | inf, _ => false
  | num _, inf => true

/-- The strict greater-than of JavaScript. -/
def jgt (a b : JSNum) : Bool := jlt b a

/-- The non-strict less-or-equal of JavaScript: false whenever NaN is
involved. -/
def jle : JSNum → JSNum → Bool
  | nan, _ => false
  | _, nan => false
  | num a, num b => decide (a ≤ b)
  | ninf, _ => true
  | _, ninf => false
  | _, inf => true
  | inf, num _ => false

/-- Number of iterations of a source loop of the form
for (i = 0; i < n; i++) whose bound n is an integer-valued JSNum
(every such bound in the engine is a Math.floor result).  The non-finite
cases never arise for the positive inputs considered in the theorems
below and are mapped to 0. -/
def jIterations : JSNum → ℕ
  | num q => (⌊q⌋ : ℤ).toNat
  | _ => 0

end JSNum

open JSNum

/-- Carton input record (validated numeric fields of the source). -/
structure CartonData where
  length : ℚ
  width : ℚ
  height : ℚ
  weight : ℚ
  quantity : ℚ
deriving DecidableEq, Repr

/-- Pallet input record. -/
structure PalletData where
  length : ℚ
  width : ℚ
  height : ℚ
  maxStackHeight : ℚ
  maxStackWeight : ℚ
deriving DecidableEq, Repr

/-- Container input record. -/
structure ContainerData where
  length : ℚ
  width : ℚ
  height : ℚ
  weightCapacity : ℚ
deriving DecidableEq, Repr

/-- Optimization settings. -/
structure CalcSettings where
  enableRotation : Bool
  considerLoadBearing : Bool
deriving DecidableEq, Repr

/-- JavaScript truthiness fallback x || d for a numeric field: 0 falls
back to the default. -/
def orDefault (x d : ℚ) : ℚ := if x = 0 then d else x

/-- Result record of calculatePalletLoading in calculator.js. -/
structure PalletLoadingResult where
  cartonsPerLayer : JSNum
  maxLayers : JSNum
  cartonsPerPallet : JSNum
  palletsNeeded : JSNum
  totalCartonsPlaced : JSNum
  remainingCartons : JSNum
  orientation : String
  efficiency : JSNum
deriving DecidableEq, Repr

/-- calculatePalletLoading from calculator.js: best grid orientation on the
pallet base, layer bounds by height and (optionally) weight, then
quantity-aware totals. -/
def calculatePalletLoading (carton : CartonData) (pallet : PalletData)
    (settings : CalcSettings) : PalletLoadingResult :=
  let orientations : List (ℚ × ℚ × String) :=
    if settings.enableRotation then
      [(carton.length, carton.width, "normal"), (carton.width, carton.length, "rotated")]
    else
      [(carton.length, carton.width, "normal")]
  let bestFit := orientations.foldl (fun best o =>
    let cartonsAlongLength := jfloor (jdiv (num pallet.length) (num o.1))
    let cartonsAlongWidth := jfloor (jdiv (num pallet.width) (num o.2.1))
    let cartonsPerLayer := jmul cartonsAlongLength cartonsAlongWidth
    if jgt cartonsPerLayer best.1 then (cartonsPerLayer, o.2.2) else best)
    (num 0, "normal")
  let maxLayersByHeight := jfloor (jdiv (num pallet.maxStackHeight) (num carton.height))
  let maxLayersByWeight :=
    jfloor (jdiv (num pallet.maxStackWeight) (jmul (num carton.weight) bestFit.1))
  let maxLayers :=
    if settings.considerLoadBearing then jmin maxLayersByHeight maxLayersByWeight
    else maxLayersByHeight
  let cartonsPerPallet := jmul bestFit.1 maxLayers
  let palletsNeeded := jceil (jdiv (num carton.quantity) cartonsPerPallet)
  let totalCartonsPlaced := jmin (num carton.quantity) (jmul palletsNeeded cartonsPerPallet)
  let remainingCartons := jsub (num carton.quantity) totalCartonsPlaced
  { cartonsPerLayer := bestFit.1
    maxLayers := maxLayers
    cartonsPerPallet := cartonsPerPallet
    palletsNeeded := palletsNeeded
    totalCartonsPlaced := totalCartonsPlaced
    remainingCartons := remainingCartons
    orientation := bestFit.2
    efficiency := jmul (jdiv totalCartonsPlaced (num carton.quantity)) (num 100) }

/-- The ternary condition's divisor in calculateContainerLoading:
pHeight + maxLayers * cartonsPerLayer > 0 selects the maxStackHeight
fallback, otherwise the pallet height. -/
def containerStackDivisor (palletResult : PalletLoadingResult) (palletData : PalletData) : JSNum :=
  if jgt (jadd (num palletData.height)
            (jmul palletResult.maxLayers palletResult.cartonsPerLayer)) (num 0) then
    num (orDefault palletData.maxStackHeight 200)
  else
    num palletData.height

/-- The per-orientation layer count of calculateContainerLoading (the
expression does not mention the orientation). -/
def containerMaxLayers (palletResult : PalletLoadingResult) (containerData : ContainerData)
    (palletData : PalletData) : JSNum :=
  jfloor (jdiv (num containerData.height) (containerStackDivisor palletResult palletData))

/-- Result record of calculateContainerLoading in calculator.js. -/
structure ContainerLoadingResult where
  palletsPerContainer : JSNum
  containersNeeded : JSNum
  totalPalletsPlaced : JSNum
  spaceUtilization : JSNum
  orientation : String
deriving DecidableEq, Repr

/-- calculateContainerLoading from calculator.js, including the suspicious
ternary in its maxLayers expression and the approximate carton height 25
of its used-volume estimate. -/
def calculateContainerLoading (palletResult : PalletLoadingResult)
    (containerData : ContainerData) (palletData : PalletData) : ContainerLoadingResult :=
  let orientations : List (ℚ × ℚ × String) :=
    [(palletData.length, palletData.width, "normal"),
     (palletData.width, palletData.length, "rotated")]
  let best := orientations.foldl (fun best o =>
    let palletsAlongLength := jfloor (jdiv (num containerData.length) (num o.1))
    let palletsAlongWidth := jfloor (jdiv (num containerData.width) (num o.2.1))
    let palletsPerLayer := jmul palletsAlongLength palletsAlongWidth
    let maxLayers := containerMaxLayers palletResult containerData palletData
    let palletsPerContainer := jmul palletsPerLayer maxLayers
    if jgt palletsPerContainer best.1 then (palletsPerContainer, o.2.2) else best)
    (num 0, "normal")
  let containersNeeded := jceil (jdiv palletResult.palletsNeeded best.1)
  let totalPalletsPlaced := jmin palletResult.palletsNeeded (jmul containersNeeded best.1)
  let usedVolume :=
    jmul (jmul (jmul totalPalletsPlaced (num palletData.length)) (num palletData.width))
      (jadd (num palletData.height)
        (jmul (jmul palletResult.maxLayers palletResult.cartonsPerLayer) (num 25)))
  let totalVolume :=
    jmul (jmul (jmul containersNeeded (num containerData.length)) (num containerData.width))
      (num containerData.height)
  { palletsPerContainer := best.1
    containersNeeded := containersNeeded
    totalPalletsPlaced := totalPalletsPlaced
    spaceUtilization := jmul (jdiv usedVolume totalVolume) (num 100)
    orientation := best.2 }

/-- Carton dimensions as normalised by the Layout3D constructor. -/
structure CartonDims where
  length : ℚ
  width : ℚ
  height : ℚ
  weight : ℚ
deriving DecidableEq, Repr

/-- Pallet dimensions as normalised by the Layout3D constructor:
maxWeight and maxHeight apply the source's truthiness fallbacks. -/
structure PalletDims where
  length : ℚ
  width : ℚ
  height : ℚ
  maxWeight : ℚ
  maxHeight : ℚ
deriving DecidableEq, Repr

/-- Container dimensions as normalised by the Layout3D constructor. -/
structure ContainerDims where
  length : ℚ
  width : ℚ
  height : ℚ
  maxWeight : ℚ
deriving DecidableEq, Repr

/-- The Layout3D constructor's carton field copies. -/
def mkCartonDims (c : CartonData) : CartonDims :=
  { length := c.length, width := c.width, height := c.height, weight := c.weight }

/-- The Layout3D constructor's pallet fields; the source falls back through
palletData.maxWeight (absent on validated input records) to the literal
defaults 1000 and 200. -/
def mkPalletDims (p : PalletData) : PalletDims :=
  { length := p.length, width := p.width, height := p.height
    maxWeight := orDefault p.maxStackWeight 1000
    maxHeight := orDefault p.maxStackHeight 200 }

/-- The Layout3D constructor's container fields. -/
def mkContainerDims (c : ContainerData) : ContainerDims :=
  { length := c.length, width := c.width, height := c.height
    maxWeight := orDefault c.weightCapacity 26000 }

/-- A candidate carton orientation of the 3D layout module:
footprint l by w, height h, rotation 0 or 90 degrees. -/
structure Orientation3D where
  l : ℚ
  w : ℚ
  h : ℚ
  rotation : ℕ
deriving DecidableEq, Repr

/-- The orientation tag stored on a pallet layout: a single orientation, or
the mixed-row combination with its row counts. -/
inductive LayoutOrientation where
  | single (o : Orientation3D)
  | mixed (normalRows rotatedRows : ℕ)
deriving DecidableEq, Repr

/-- One carton placement of the 3D layout module. -/
structure CartonPosition where
  x : ℚ
  y : ℚ
  z : ℚ
  layer : ℕ
  rotation : String
  gridX : ℕ
  gridY : ℕ
deriving DecidableEq, Repr

/-- A pallet-level layout of the 3D layout module. -/
structure PalletLayout where
  cartonsPerLayer : JSNum
  maxLayers : JSNum
  totalCartons : JSNum
  cartonPositions : List CartonPosition
  orientation : LayoutOrientation
  efficiency : JSNum
  utilization : JSNum
deriving DecidableEq, Repr

namespace Layout3D

/-- calculateSingleOrientation of the 3D layout module: a uniform grid for
one orientation; the layer count is always the minimum of the height and
weight bounds (the settings are not consulted here). -/
def calculateSingleOrientation (cd : CartonDims) (pd : PalletDims)
    (o : Orientation3D) : PalletLayout :=
  let cartonsX := jfloor (jdiv (num pd.length) (num o.l))
  let cartonsY := jfloor (jdiv (num pd.width) (num o.w))
  let cartonsPerLayer := jmul cartonsX cartonsY
  let maxLayersByHeight := jfloor (jdiv (num pd.maxHeight) (num o.h))
  let maxLayersByWeight :=
    jfloor (jdiv (num pd.maxWeight) (jmul cartonsPerLayer (num cd.weight)))
  let maxLayers := jmin maxLayersByHeight maxLayersByWeight
  let totalCartons := jmul cartonsPerLayer maxLayers
  let nX := jIterations cartonsX
  let nY := jIterations cartonsY
  let nL := jIterations maxLayers
  let cartonPositions := (List.range nL).flatMap (fun layer =>
    (List.range nY).flatMap (fun y =>
      (List.range nX).map (fun x =>
        { x := (x : ℚ) * o.l
          y := (y : ℚ) * o.w
          z := (layer : ℚ) * o.h
          layer := layer
          rotation := if o.rotation = 90 then "WLH" else "LWH"
          gridX := x
          gridY := y })))
  { cartonsPerLayer := cartonsPerLayer
    maxLayers := maxLayers
    totalCartons := totalCartons
    cartonPositions := cartonPositions
    orientation := .single o
    efficiency := jdiv (jmul (jmul cartonsPerLayer (num o.l)) (num o.w))
      (num (pd.length * pd.width))
    utilization := jdiv totalCartons
      (jmul (jmul (jfloor (jdiv (num pd.length) (num cd.length)))
          (jfloor (jdiv (num pd.width) (num cd.width))))
        (jfloor (jdiv (num pd.maxHeight) (num cd.height)))) }

/-- The loop body of the mixed-row search: for b rotated rows, the
remaining width takes a = floor(remaining / rowWidth0) as-given rows, and
the pair replaces the best when its per-layer count is strictly
greater. -/
def mixedRowStep (cd : CartonDims) (pd : PalletDims)
    (best : JSNum × ℕ × JSNum) (b : ℕ) : JSNum × ℕ × JSNum :=
  let remainingWidth := jsub (num pd.width) (jmul (num (b : ℚ)) (num cd.length))
  let a := jfloor (jdiv remainingWidth (num cd.width))
  let perLayer := jadd (jmul a (jfloor (jdiv (num pd.length) (num cd.length))))
    (jmul (num (b : ℚ)) (jfloor (jdiv (num pd.length) (num cd.width))))
  if jgt perLayer best.2.2 then (a, b, perLayer) else best

/-- calculateMixedRowLayout of the 3D layout module: searches row
combinations (a normal rows, b rotated rows) across the pallet width.  The
mutable yOffset accumulation of the source is rendered in closed form:
after the first b rotated rows the offset is b times the rotated row
width. -/
def calculateMixedRowLayout (cd : CartonDims) (pd : PalletDims)
    (st : CalcSettings) : Option PalletLayout :=
  if !st.enableRotation then none else
  let countRow0 := jfloor (jdiv (num pd.length) (num cd.length))
  let rowWidth0 := cd.width
  let countRow90 := jfloor (jdiv (num pd.length) (num cd.width))
  let rowWidth90 := cd.length
  if countRow0 = num 0 ∧ countRow90 = num 0 then none else
  let maxRows90 := jfloor (jdiv (num pd.width) (num rowWidth90))
  let best := (List.range (jIterations (jadd maxRows90 (num 1)))).foldl
    (mixedRowStep cd pd) ((num 0 : JSNum), (0 : ℕ), (num 0 : JSNum))
  let cartonsPerLayer := best.2.2
  if jle cartonsPerLayer (num 0) then none else
  let maxLayersByHeight := jfloor (jdiv (num pd.maxHeight) (num cd.height))
  let weightPerLayer := jmul cartonsPerLayer (num cd.weight)
  let maxLayersByWeight := jfloor (jdiv (num pd.maxWeight) (jmax (num 1) weightPerLayer))
  let maxLayers := jmin maxLayersByHeight maxLayersByWeight
  let totalCartons := jmul cartonsPerLayer maxLayers
  let nL := jIterations maxLayers
  let aN := jIterations best.1
  let bN := best.2.1
  let n90 := jIterations countRow90
  let n0 := jIterations countRow0
  let cartonPositions := (List.range nL).flatMap (fun layer =>
    ((List.range bN).flatMap (fun r =>
      (List.range n90).map (fun x =>
        { x := (x : ℚ) * cd.width
          y := (r : ℚ) * rowWidth90
          z := (layer : ℚ) * cd.height
          layer := layer
          rotation := "WLH"
          gridX := x
          gridY := r })))
    ++ ((List.range aN).flatMap (fun r =>
      (List.range n0).map (fun x =>
        { x := (x : ℚ) * cd.length
          y := (bN : ℚ) * rowWidth90 + (r : ℚ) * rowWidth0
          z := (layer : ℚ) * cd.height
          layer := layer
          rotation := "LWH"
          gridX := x
          gridY := bN + r }))))
  some
    { cartonsPerLayer := cartonsPerLayer
      maxLayers := maxLayers
      totalCartons := totalCartons
      cartonPositions := cartonPositions
      orientation := .mixed aN bN
      efficiency := jdiv (jmul (jmul cartonsPerLayer (num cd.length)) (num cd.width))
        (num (pd.length * pd.width))
      utilization := jdiv totalCartons
        (jmul (jmul (jfloor (jdiv (num pd.length) (num cd.length)))
            (jfloor (jdiv (num pd.width) (num cd.width))))
          (jfloor (jdiv (num pd.maxHeight) (num cd.height)))) }

/-- The score of a single-orientation candidate: totalCartons plus 100
times efficiency plus 100 times utilization, plus 50 for a rotated
orientation. -/
def orientationScore (layout : PalletLayout) (o : Orientation3D) : JSNum :=
  let score := jadd (jadd layout.totalCartons (jmul layout.efficiency (num 100)))
    (jmul layout.utilization (num 100))
  if o.rotation = 90 then jadd score (num 50) else score

/-- The loop body of calculatePalletLayout's orientation loop: a candidate
is considered only when its totalCartons is positive, and replaces the
accumulator only when its score is strictly greater. -/
def orientationStep (cd : CartonDims) (pd : PalletDims)
    (acc : Option PalletLayout × JSNum) (o : Orientation3D) :
    Option PalletLayout × JSNum :=
  let layout := calculateSingleOrientation cd pd o
  if jgt layout.totalCartons (num 0) then
    let score := orientationScore layout o
    if jgt score acc.2 then (some layout, score) else acc
  else acc

/-- calculatePalletLayout of the 3D layout module: scores the single
orientations (both when rotation is enabled) and the mixed-row candidate,
keeping the strictly best score. -/
def calculatePalletLayout (cd : CartonDims) (pd : PalletDims)
    (st : CalcSettings) : Option PalletLayout :=
  let orientations : List Orientation3D :=
    if st.enableRotation then
      [{ l := cd.length, w := cd.width, h := cd.height, rotation := 0 },
       { l := cd.width, w := cd.length, h := cd.height, rotation := 90 }]
    else
      [{ l := cd.length, w := cd.width, h := cd.height, rotation := 0 }]
  let best := orientations.foldl (orientationStep cd pd)
    ((none : Option PalletLayout), (num 0 : JSNum))
  let final := match calculateMixedRowLayout cd pd st with
    | none => best
    | some mixed =>
      let mixedScore := jadd (jadd (jadd mixed.totalCartons (jmul mixed.efficiency (num 100)))
        (jmul mixed.utilization (num 100))) (num 75)
      if jgt mixedScore best.2 then (some mixed, mixedScore) else best
  final.1

/-- One pallet placement inside the container.  The y coordinate involves
the JSNum stackHeight, so the coordinates are kept as JSNum. -/
structure PalletPosition where
  x : JSNum
  y : JSNum
  z : JSNum
  layer : ℕ
  index : ℕ
deriving DecidableEq, Repr

/-- A container-level layout of the 3D layout module. -/
structure ContainerLayout where
  palletsPerLayer : JSNum
  maxPalletLayers : JSNum
  totalPallets : JSNum
  palletPositions : List PalletPosition
  containerUtilization : JSNum
  weightUtilization : JSNum
deriving DecidableEq, Repr

/-- calculateContainerLayout of the 3D layout module.  The source's triple
loop pushes positions until palletCount reaches actualPallets; this is the
full grid truncated to that count, with index equal to the push order. -/
def calculateContainerLayout (cd : CartonDims) (pd : PalletDims) (kd : ContainerDims) :
    Option PalletLayout → ContainerLayout
  | none =>
    { palletsPerLayer := num 0
      maxPalletLayers := num 0
      totalPallets := num 0
      palletPositions := []
      containerUtilization := num 0
      weightUtilization := num 0 }
  | some palletLayout =>
    let stackHeight := jadd (num pd.height) (jmul palletLayout.maxLayers (num cd.height))
    let palletsX := jfloor (jdiv (num kd.length) (num pd.length))
    let palletsY := jfloor (jdiv (num kd.width) (num pd.width))
    let palletsZ := jfloor (jdiv (num kd.height) stackHeight)
    let palletsPerLayer := jmul palletsX palletsY
    let maxPalletLayers := palletsZ
    let totalPallets := jmul palletsPerLayer maxPalletLayers
    let totalWeight := jmul (jmul totalPallets palletLayout.totalCartons) (num cd.weight)
    let weightLimitedPallets :=
      jfloor (jdiv (num kd.maxWeight) (jmul palletLayout.totalCartons (num cd.weight)))
    let actualPallets := jmin totalPallets weightLimitedPallets
    let grid := (List.range (jIterations maxPalletLayers)).flatMap (fun layer =>
      (List.range (jIterations palletsX)).flatMap (fun x =>
        (List.range (jIterations palletsY)).map (fun y =>
          (layer, x, y))))
    let palletPositions := ((grid.take (jIterations actualPallets)).enum).map
      (fun p =>
        { x := num (((p.2.2.1 : ℚ) + 1/2) * pd.length - kd.length / 2)
          y := jadd (jmul (num (p.2.1 : ℚ)) stackHeight) (num (pd.height / 2))
          z := num (((p.2.2.2 : ℚ) + 1/2) * pd.width - kd.width / 2)
          layer := p.2.1
          index := p.1 })
    { palletsPerLayer := palletsPerLayer
      maxPalletLayers := maxPalletLayers
      totalPallets := actualPallets
      palletPositions := palletPositions
      containerUtilization :=
        jdiv (jmul (jmul (jmul actualPallets (num pd.length)) (num pd.width)) stackHeight)
          (num (kd.length * kd.width * kd.height))
      weightUtilization := jdiv totalWeight (num kd.maxWeight) }

/-- The composed 3D layout record consumed by the presentation layer. -/
structure Complete3DLayout where
  cartonsPerLayer : JSNum
  maxLayers : JSNum
  cartonsPerPallet : JSNum
  cartonPositions : List CartonPosition
  palletsPerContainer : JSNum
  totalPalletsPlaced : JSNum
  palletPositions : List PalletPosition
  totalCartons : JSNum
  remainingCartons : JSNum
  packingEfficiency : JSNum
  spaceUtilization : JSNum
  weightUtilization : JSNum
deriving DecidableEq, Repr

/-- calculateComplete3DLayout of the 3D layout module: composes the pallet
and container layouts and clips the totals to the requested quantity. -/
def calculateComplete3DLayout (carton : CartonData) (pallet : PalletData)
    (container : ContainerData) (st : CalcSettings) : Complete3DLayout :=
  let cd := mkCartonDims carton
  let pd := mkPalletDims pallet
  let kd := mkContainerDims container
  match calculatePalletLayout cd pd st with
  | none =>
    { cartonsPerLayer := num 0
      maxLayers := num 0
      cartonsPerPallet := num 0
      cartonPositions := []
      palletsPerContainer := num 0
      totalPalletsPlaced := num 0
      palletPositions := []
      totalCartons := num 0
      remainingCartons := num carton.quantity
      packingEfficiency := num 0
      spaceUtilization := num 0
      weightUtilization := num 0 }
  | some palletLayout =>
    let containerLayout := calculateContainerLayout cd pd kd (some palletLayout)
    let palletsPerPallet := palletLayout.totalCartons
    let palletsNeeded := jceil (jdiv (num carton.quantity) palletsPerPallet)
    let palletsAvailable := containerLayout.totalPallets
    let palletsUsed := jmin palletsNeeded palletsAvailable
    let totalCartons := jmin (num carton.quantity) (jmul palletsUsed palletsPerPallet)
    let remainingCartons := jmax (num 0) (jsub (num carton.quantity) totalCartons)
    let packingEfficiency :=
      if 0 < carton.quantity then jdiv totalCartons (num carton.quantity) else num 0
    { cartonsPerLayer := palletLayout.cartonsPerLayer
      maxLayers := palletLayout.maxLayers
      cartonsPerPallet := palletLayout.totalCartons
      cartonPositions := palletLayout.cartonPositions
      palletsPerContainer := containerLayout.palletsPerLayer
      totalPalletsPlaced := palletsUsed
      palletPositions := containerLayout.palletPositions.take (jIterations palletsUsed)
      totalCartons := totalCartons
      remainingCartons := remainingCartons
      packingEfficiency := packingEfficiency
      spaceUtilization := containerLayout.containerUtilization
      weightUtilization := containerLayout.weightUtilization }

end Layout3D

/-- create3DLayout, the helper wrapping the Layout3D class. -/
def create3DLayout (carton : CartonData) (pallet : PalletData)
    (container : ContainerData) (st : CalcSettings) : Layout3D.Complete3DLayout :=
  Layout3D.calculateComplete3DLayout carton pallet container st

/-- The summary block of the optimization report. -/
structure ReportSummary where
  totalCartons : JSNum
  cartonsPlaced : JSNum
  remainingCartons : JSNum
  palletsUsed : JSNum
  containersUsed : JSNum
  efficiency : JSNum
  spaceUtilization : JSNum
deriving DecidableEq, Repr

/-- The report returned by generateOptimizationReport.  The wall-clock
timestamp the source obtains from new Date() is the call's only impure
input and is passed explicitly. -/
structure OptimizationReport where
  carton : CartonData
  pallet : PalletData
  palletResult : PalletLoadingResult
  container : ContainerData
  containerResult : ContainerLoadingResult
  settings : CalcSettings
  summary : ReportSummary
  layout3D : Layout3D.Complete3DLayout
  timestamp : String
deriving DecidableEq, Repr

/-- generateOptimizationReport from calculator.js. -/
def generateOptimizationReport (carton : CartonData) (pallet : PalletData)
    (container : ContainerData) (settings : CalcSettings)
    (timestamp : String) : OptimizationReport :=
  let palletResult := calculatePalletLoading carton pallet settings
  let containerResult := calculateContainerLoading palletResult container pallet
  let layout3D := create3DLayout carton pallet container settings
  { carton := carton
    pallet := pallet
    palletResult := palletResult
    container := container
    containerResult := containerResult
    settings := settings
    summary :=
      { totalCartons := num carton.quantity
        cartonsPlaced := palletResult.totalCartonsPlaced
        remainingCartons := palletResult.remainingCartons
        palletsUsed := palletResult.palletsNeeded
        containersUsed := containerResult.containersNeeded
        efficiency := palletResult.efficiency
        spaceUtilization := containerResult.spaceUtilization }
    layout3D := layout3D
    timestamp := timestamp }

/-- A report with its timestamp erased, isolating the computational
content from the only impure field. -/
def reportWithoutTimestamp (r : OptimizationReport) : OptimizationReport :=
  { r with timestamp := "" }

/-! Concrete inputs used by the theorems below. -/

/-- Scenario A carton: 50 by 30 by 25 cm, 15 kg, quantity 200. -/
def scenarioACarton : CartonData := ⟨50, 30, 25, 15, 200⟩

/-- Scenario A pallet: 120 by 80 by 14.5 cm, stack limits 200 cm and 1000 kg. -/
def scenarioAPallet : PalletData := ⟨120, 80, 29/2, 200, 1000⟩

/-- A standard-sized container used where one is required. -/
def scenarioAContainer : ContainerData := ⟨1200, 240, 260, 26000⟩

/-- Scenario A settings: rotation on, load bearing off. -/
def scenarioASettings : CalcSettings := ⟨true, false⟩

/-- Scenario C carton: so heavy that a single layer exceeds the stack
weight, making maxLayersByWeight zero. -/
def scenarioCCarton : CartonData := ⟨50, 40, 50, 1000, 100⟩

/-- Scenario C settings: rotation on, load bearing on. -/
def scenarioCSettings : CalcSettings := ⟨true, true⟩

/-- Scenario B carton: footprint exactly equal to the scenario A pallet. -/
def scenarioBCarton : CartonData := ⟨120, 80, 25, 10, 50⟩

/-- A carton whose weight limits stacking to one layer while the height
limit would allow four. -/
def loadLimitedCarton : CartonData := ⟨50, 50, 50, 500, 10⟩

/-- A small carton on a near-square pallet for which the rotated
orientation wins the score despite packing fewer cartons per layer. -/
def rotationBiasCarton : CartonData := ⟨15, 10, 45, 1, 100⟩

/-- The pallet paired with rotationBiasCarton. -/
def rotationBiasPallet : PalletData := ⟨200, 190, 15, 300, 1482⟩

/-- A carton too large for the pallet in any orientation. -/
def oversizedCarton : CartonData := ⟨300, 300, 300, 10, 10⟩

/-- A carton filling the pallet exactly once, giving one-placement
layouts. -/
def cubeCarton : CartonData := ⟨100, 100, 100, 1, 5⟩

/-- The pallet paired with cubeCarton. -/
def cubePallet : PalletData := ⟨100, 100, 15, 150, 1000⟩

/-- Positivity of the dimension fields consumed by the 3D layout
packers. -/
def PosDims (cd : CartonDims) (pd : PalletDims) : Prop :=
  0 < cd.length ∧ 0 < cd.width ∧ 0 < cd.height ∧ 0 < cd.weight ∧
  0 ≤ pd.length ∧ 0 ≤ pd.width ∧ 0 < pd.maxHeight ∧ 0 < pd.maxWeight

instance (cd : CartonDims) (pd : PalletDims) : Decidable (PosDims cd pd) := by
  unfold PosDims; infer_instance

/-- Positivity of the container dimension fields. -/
def PosContainer (kd : ContainerDims) : Prop :=
  0 < kd.length ∧ 0 < kd.width ∧ 0 < kd.height ∧ 0 < kd.maxWeight

instance (kd : ContainerDims) : Decidable (PosContainer kd) := by
  unfold PosContainer; infer_instance

/-- The numeric ranges the validation layer guarantees before the engine
runs, weakened to the positivity the theorems need. -/
def ValidInput (c : CartonData) (p : PalletData) (k : ContainerData) : Prop :=
  0 < c.length ∧ 0 < c.width ∧ 0 < c.height ∧ 0 < c.weight ∧ 0 < c.quantity ∧
  0 < p.length ∧ 0 < p.width ∧ 0 < p.height ∧
  0 ≤ p.maxStackHeight ∧ 0 ≤ p.maxStackWeight ∧
  0 < k.length ∧ 0 < k.width ∧ 0 < k.height ∧ 0 ≤ k.weightCapacity

instance (c : CartonData) (p : PalletData) (k : ContainerData) :
    Decidable (ValidInput c p k) := by
  unfold ValidInput; infer_instance

/-! Evaluation lemmas for the JSNum operations. -/

namespace JSNum

theorem jadd_num (a b : ℚ) : jadd (num a) (num b) = num (a + b) := rfl

theorem jsub_num (a b : ℚ) : jsub (num a) (num b) = num (a - b) := by
  show jadd (num a) (jneg (num b)) = num (a - b)
  show num (a + -b) = num (a - b)
  rw [sub_eq_add_neg]

theorem jmul_num (a b : ℚ) : jmul (num a) (num b) = num (a * b) := rfl

theorem jdiv_num {b : ℚ} (hb : b ≠ 0) (a : ℚ) : jdiv (num a) (num b) = num (a / b) := by
  simp [jdiv, hb]

theorem jdiv_num_zero {a : ℚ} (ha : 0 < a) : jdiv (num a) (num 0) = inf := by
  simp [jdiv, ha.ne', ha]

theorem jfloor_num (a : ℚ) : jfloor (num a) = num (⌊a⌋ : ℤ) := rfl

theorem jceil_num (a : ℚ) : jceil (num a) = num (⌈a⌉ : ℤ) := rfl

theorem jceil_inf : jceil inf = inf := rfl

theorem jmin_num (a b : ℚ) : jmin (num a) (num b) = num (min a b) := rfl

theorem jmin_num_inf (a : ℚ) : jmin (num a) inf = num a := rfl

theorem jmin_inf_num (a : ℚ) : jmin inf (num a) = num a := rfl

theorem jmax_num (a b : ℚ) : jmax (num a) (num b) = num (max a b) := rfl

theorem jgt_num (a b : ℚ) : jgt (num a) (num b) = decide (b < a) := rfl

theorem jle_num (a b : ℚ) : jle (num a) (num b) = decide (a ≤ b) := rfl

theorem jIterations_num (q : ℚ) : jIterations (num q) = (⌊q⌋ : ℤ).toNat := rfl

/-- The iteration count of a minimum with a finite left operand is at most
the iteration count of that operand. -/
theorem jIterations_jmin_le_left (a : ℚ) (x : JSNum) :
    jIterations (jmin (num a) x) ≤ jIterations (num a) := by
  cases x with
  | num b =>
      simp only [jmin, jIterations]
      exact Int.toNat_le_toNat (Int.floor_le_floor (min_le_left a b))
  | inf => exact le_refl _
  | ninf => exact Nat.zero_le _
  | nan => exact Nat.zero_le _

end JSNum

/-! Claim C2: determinism of generateOptimizationReport. -/

/-- C2 (corrected): two calls to generateOptimizationReport with identical
inputs agree on every field except the wall-clock timestamp; erasing the
timestamp, the reports are equal.  The claim as stated (bit-identical
reports) fails because the report embeds the call time. -/
theorem C2_report_deterministic_modulo_timestamp
    (c : CartonData) (p : PalletData) (k : ContainerData) (s : CalcSettings)
    (t1 t2 : String) :
    reportWithoutTimestamp (generateOptimizationReport c p k s t1) =
      reportWithoutTimestamp (generateOptimizationReport c p k s t2) := rfl

/-- C2 counterexample: at a concrete input, two calls whose clock readings
differ return reports that are not bit-identical. -/
theorem C2_counterexample :
    generateOptimizationReport scenarioACarton scenarioAPallet scenarioAContainer
        scenarioASettings "2024-01-01T00:00:00.000Z" ≠
      generateOptimizationReport scenarioACarton scenarioAPallet scenarioAContainer
        scenarioASettings "2024-01-01T00:00:01.000Z" := by
  intro h
  have h2 : ("2024-01-01T00:00:00.000Z" : String) = "2024-01-01T00:00:01.000Z" :=
    congrArg OptimizationReport.timestamp h
  exact absurd h2 (by decide)

/-! Claim C3: concrete scenario A through calculatePalletLoading. -/

unseal Rat.add Rat.mul Rat.sub Rat.inv in
/-- C3 counterexample: at scenario A the engine's layer count is
floor(200 / 25) = 8, not floor((200 - 14.5) / 25) = 7, so the claimed
values 7, 28 and 8 do not hold together with the claimed 4 per layer. -/
theorem C3_counterexample :
    ¬ ((calculatePalletLoading scenarioACarton scenarioAPallet scenarioASettings).cartonsPerLayer
          = num 4 ∧
       (calculatePalletLoading scenarioACarton scenarioAPallet scenarioASettings).maxLayers
          = num 7 ∧
       (calculatePalletLoading scenarioACarton scenarioAPallet scenarioASettings).cartonsPerPallet
          = num 28 ∧
       (calculatePalletLoading scenarioACarton scenarioAPallet scenarioASettings).palletsNeeded
          = num 8) := by decide

unseal Rat.add Rat.mul Rat.sub Rat.inv in
/-- C3 (corrected): scenario A as computed by the code: 2 cartons along
each axis of the as-given footprint, 4 per layer, maxLayers =
floor(maxStackHeight / height) = floor(200 / 25) = 8 (the pallet height is
not subtracted), 32 cartons per pallet, and ceil(200 / 32) = 7 pallets. -/
theorem C3_scenarioA_theorem :
    jfloor (jdiv (num scenarioAPallet.length) (num scenarioACarton.length)) = num 2 ∧
    jfloor (jdiv (num scenarioAPallet.width) (num scenarioACarton.width)) = num 2 ∧
    (calculatePalletLoading scenarioACarton scenarioAPallet scenarioASettings).cartonsPerLayer
      = num 4 ∧
    (calculatePalletLoading scenarioACarton scenarioAPallet scenarioASettings).maxLayers
      = num 8 ∧
    (calculatePalletLoading scenarioACarton scenarioAPallet scenarioASettings).cartonsPerPallet
      = num 32 ∧
    (calculatePalletLoading scenarioACarton scenarioAPallet scenarioASettings).palletsNeeded
      = num 7 ∧
    (calculatePalletLoading scenarioACarton scenarioAPallet scenarioASettings).orientation
      = "normal" := by decide

/-! Claim C4: the divisions by zero are not guarded. -/

unseal Rat.add Rat.mul Rat.sub Rat.inv in
/-- C4 (code bug): at scenario C the weight bound forces zero layers, the
cartons-per-pallet denominator becomes zero, and the report's summary
contains Infinity and NaN instead of zero cartons placed: palletsUsed is
Infinity and cartonsPlaced, remainingCartons and efficiency are NaN.  The
composed 3D layout of the same report does report zero cartons. -/
theorem C4_scenarioC_unguarded_theorem :
    (generateOptimizationReport scenarioCCarton scenarioAPallet scenarioAContainer
        scenarioCSettings "t").summary.palletsUsed = JSNum.inf ∧
    (generateOptimizationReport scenarioCCarton scenarioAPallet scenarioAContainer
        scenarioCSettings "t").summary.cartonsPlaced = JSNum.nan ∧
    (generateOptimizationReport scenarioCCarton scenarioAPallet scenarioAContainer
        scenarioCSettings "t").summary.remainingCartons = JSNum.nan ∧
    (generateOptimizationReport scenarioCCarton scenarioAPallet scenarioAContainer
        scenarioCSettings "t").summary.efficiency = JSNum.nan ∧
    (calculatePalletLoading scenarioCCarton scenarioAPallet scenarioCSettings).maxLayers
      = num 0 ∧
    (generateOptimizationReport scenarioCCarton scenarioAPallet scenarioAContainer
        scenarioCSettings "t").layout3D.totalCartons = num 0 := by decide

/-! Claim C6: scenario B, carton footprint equal to the pallet footprint. -/

unseal Rat.add Rat.mul Rat.sub Rat.inv in
/-- C6 counterexample: with the carton footprint exactly equal to the
pallet footprint, the mixed-row search does not return null: the row
combination of one as-given row is found and a layout is returned. -/
theorem C6_counterexample :
    Layout3D.calculateMixedRowLayout (mkCartonDims scenarioBCarton)
      (mkPalletDims scenarioAPallet) scenarioASettings ≠ none := by decide

unseal Rat.add Rat.mul Rat.sub Rat.inv in
/-- C6 (corrected): the as-given orientation yields one carton per layer,
and the mixed-row search returns (without erroring) a layout whose
density is the same single carton per layer, rather than null. -/
theorem C6_scenarioB_theorem :
    (Layout3D.calculateSingleOrientation (mkCartonDims scenarioBCarton)
        (mkPalletDims scenarioAPallet)
        { l := scenarioBCarton.length, w := scenarioBCarton.width,
          h := scenarioBCarton.height, rotation := 0 }).cartonsPerLayer = num 1 ∧
    (Layout3D.calculateMixedRowLayout (mkCartonDims scenarioBCarton)
        (mkPalletDims scenarioAPallet) scenarioASettings).map
      (fun L => L.cartonsPerLayer) = some (num 1) := by decide

/-! Claim C10: the always-true ternary in calculateContainerLoading. -/

/-- C10 (confirmed): whenever the pallet height is positive and the pallet
result's maxLayers and cartonsPerLayer are nonnegative finite numbers, the
ternary condition pHeight + maxLayers * cartonsPerLayer > 0 is true, so the
divisor is always maxStackHeight || 200 and the container layer count is
floor(container.height / (maxStackHeight || 200)); the pHeight branch is
unreachable. -/
theorem C10_ternary_always_true_theorem
    (pr : PalletLoadingResult) (pd : PalletData) (kd : ContainerData) (mL cpl : ℚ)
    (hh : 0 < pd.height) (hm : pr.maxLayers = num mL) (hm0 : 0 ≤ mL)
    (hc : pr.cartonsPerLayer = num cpl) (hc0 : 0 ≤ cpl) :
    containerStackDivisor pr pd = num (orDefault pd.maxStackHeight 200) ∧
    containerMaxLayers pr kd pd =
      jfloor (jdiv (num kd.height) (num (orDefault pd.maxStackHeight 200))) := by
  have hcond : jgt (jadd (num pd.height) (jmul pr.maxLayers pr.cartonsPerLayer))
      (num 0) = true := by
    rw [hm, hc, jmul_num, jadd_num, jgt_num, decide_eq_true_eq]
    have := mul_nonneg hm0 hc0
    linarith
  have hdiv : containerStackDivisor pr pd = num (orDefault pd.maxStackHeight 200) := by
    simp only [containerStackDivisor, hcond, if_true]
  exact ⟨hdiv, by simp only [containerMaxLayers, hdiv]⟩

unseal Rat.add Rat.mul Rat.sub Rat.inv in
/-- C10 witness: the scenario A pallet result feeding the scenario A
container. -/
theorem C10_ternary_always_true_witness :
    containerStackDivisor
        (calculatePalletLoading scenarioACarton scenarioAPallet scenarioASettings)
        scenarioAPallet = num (orDefault scenarioAPallet.maxStackHeight 200) ∧
    containerMaxLayers
        (calculatePalletLoading scenarioACarton scenarioAPallet scenarioASettings)
        scenarioAContainer scenarioAPallet =
      jfloor (jdiv (num scenarioAContainer.height)
        (num (orDefault scenarioAPallet.maxStackHeight 200))) :=
  C10_ternary_always_true_theorem
    (calculatePalletLoading scenarioACarton scenarioAPallet scenarioASettings)
    scenarioAPallet scenarioAContainer 8 4 (by decide) (by decide) (by decide)
    (by decide) (by decide)

/-! Claim C5: the layer-count formula of the two orientation packers. -/

/-- C5 (corrected): in calculator.js the returned maxLayers is
min(byHeight, byWeight) when considerLoadBearing is true and byHeight
alone when it is false, as claimed; but in the 3D layout module's
calculateSingleOrientation the layer count is min(byHeight, byWeight)
unconditionally: the considerLoadBearing setting is not consulted there. -/
theorem C5_maxLayers_formula_theorem :
    (∀ (c : CartonData) (p : PalletData) (s : CalcSettings) (k : ℚ),
      (calculatePalletLoading c p s).cartonsPerLayer = num k → 1 ≤ k →
      (calculatePalletLoading c p s).maxLayers =
        (if s.considerLoadBearing then
          jmin (jfloor (jdiv (num p.maxStackHeight) (num c.height)))
            (jfloor (jdiv (num p.maxStackWeight)
              (jmul (num c.weight) (calculatePalletLoading c p s).cartonsPerLayer)))
        else jfloor (jdiv (num p.maxStackHeight) (num c.height)))) ∧
    (∀ (cd : CartonDims) (pd : PalletDims) (o : Orientation3D),
      (Layout3D.calculateSingleOrientation cd pd o).maxLayers =
        jmin (jfloor (jdiv (num pd.maxHeight) (num o.h)))
          (jfloor (jdiv (num pd.maxWeight)
            (jmul (Layout3D.calculateSingleOrientation cd pd o).cartonsPerLayer
              (num cd.weight))))) :=
  ⟨fun _ _ _ _ _ _ => rfl, fun _ _ _ => rfl⟩

unseal Rat.add Rat.mul Rat.sub Rat.inv in
/-- C5 witness: the formula instantiated at scenario A, whose
cartonsPerLayer is 4. -/
theorem C5_maxLayers_formula_witness :
    (calculatePalletLoading scenarioACarton scenarioAPallet scenarioASettings).maxLayers =
      (if scenarioASettings.considerLoadBearing then
        jmin (jfloor (jdiv (num scenarioAPallet.maxStackHeight) (num scenarioACarton.height)))
          (jfloor (jdiv (num scenarioAPallet.maxStackWeight)
            (jmul (num scenarioACarton.weight)
              (calculatePalletLoading scenarioACarton scenarioAPallet
                scenarioASettings).cartonsPerLayer)))
      else jfloor (jdiv (num scenarioAPallet.maxStackHeight) (num scenarioACarton.height))) :=
  C5_maxLayers_formula_theorem.1 scenarioACarton scenarioAPallet scenarioASettings 4
    (by decide) (by decide)

unseal Rat.add Rat.mul Rat.sub Rat.inv in
/-- C5 counterexample: a carton whose weight allows only one layer.  The
3D layout module's orientation packer takes no settings, so even with
considerLoadBearing off its layer count is the weight-limited 1, not the
claimed byHeight = 4; the input has cartonsPerLayer = 2, at least 1. -/
theorem C5_counterexample :
    (Layout3D.calculateSingleOrientation (mkCartonDims loadLimitedCarton)
        (mkPalletDims scenarioAPallet)
        { l := 50, w := 50, h := 50, rotation := 0 }).cartonsPerLayer = num 2 ∧
    (Layout3D.calculateSingleOrientation (mkCartonDims loadLimitedCarton)
        (mkPalletDims scenarioAPallet)
        { l := 50, w := 50, h := 50, rotation := 0 }).maxLayers = num 1 ∧
    jfloor (jdiv (num (mkPalletDims scenarioAPallet).maxHeight) (num (50 : ℚ))) = num 4 ∧
    (Layout3D.calculateSingleOrientation (mkCartonDims loadLimitedCarton)
        (mkPalletDims scenarioAPallet)
        { l := 50, w := 50, h := 50, rotation := 0 }).maxLayers ≠
      jfloor (jdiv (num (mkPalletDims scenarioAPallet).maxHeight) (num (50 : ℚ))) := by
  decide

/-! Claim C8: monotonic rotation benefit. -/

/-- C8 (corrected): in calculator.js's calculatePalletLoading, enabling
rotation evaluates a superset of candidates under a strict maximum, so the
cartonsPerLayer with rotation enabled is at least the value with rotation
disabled.  The 3D layout module's score-based selector does not satisfy
this (see the counterexample): its flat +50 rotation bonus can select a
rotated candidate with strictly fewer cartons per layer. -/
theorem C8_rotation_monotonic_theorem (c : CartonData) (p : PalletData) (lb : Bool)
    (hcl : 0 < c.length) (hcw : 0 < c.width) (hpl : 0 ≤ p.length) (hpw : 0 ≤ p.width) :
    ∃ a b : ℚ,
      (calculatePalletLoading c p ⟨false, lb⟩).cartonsPerLayer = num a ∧
      (calculatePalletLoading c p ⟨true, lb⟩).cartonsPerLayer = num b ∧
      a ≤ b := by
  have qnn : (0:ℚ) ≤ ((⌊p.length / c.length⌋ : ℤ) : ℚ) * ((⌊p.width / c.width⌋ : ℤ) : ℚ) := by
    have h1 : (0:ℤ) ≤ ⌊p.length / c.length⌋ := Int.floor_nonneg.2 (div_nonneg hpl hcl.le)
    have h2 : (0:ℤ) ≤ ⌊p.width / c.width⌋ := Int.floor_nonneg.2 (div_nonneg hpw hcw.le)
    positivity
  set qn : ℚ := ((⌊p.length / c.length⌋ : ℤ) : ℚ) * ((⌊p.width / c.width⌋ : ℤ) : ℚ) with hqn
  set qr : ℚ := ((⌊p.length / c.width⌋ : ℤ) : ℚ) * ((⌊p.width / c.length⌋ : ℤ) : ℚ) with hqr
  have enorm : jmul (jfloor (jdiv (num p.length) (num c.length)))
      (jfloor (jdiv (num p.width) (num c.width))) = num qn := by
    rw [jdiv_num hcl.ne', jdiv_num hcw.ne', jfloor_num, jfloor_num, jmul_num]
  have erot : jmul (jfloor (jdiv (num p.length) (num c.width)))
      (jfloor (jdiv (num p.width) (num c.length))) = num qr := by
    rw [jdiv_num hcw.ne', jdiv_num hcl.ne', jfloor_num, jfloor_num, jmul_num]
  have hoff : (calculatePalletLoading c p ⟨false, lb⟩).cartonsPerLayer = num qn := by
    simp only [calculatePalletLoading, Bool.false_eq_true, if_false,
      List.foldl_cons, List.foldl_nil, enorm]
    by_cases h : 0 < qn
    · simp [jgt_num, h]
    · have h0 : qn = 0 := le_antisymm (not_lt.1 h) qnn
      simp [jgt_num, h0]
  have hon : (calculatePalletLoading c p ⟨true, lb⟩).cartonsPerLayer
      = num (if qn < qr then qr else qn) := by
    simp only [calculatePalletLoading, if_true, List.foldl_cons, List.foldl_nil, enorm, erot]
    by_cases h : 0 < qn
    · by_cases h2 : qn < qr
      · simp [jgt_num, h, h2]
      · simp [jgt_num, h, h2]
    · have h0 : qn = 0 := le_antisymm (not_lt.1 h) qnn
      by_cases h2 : (0:ℚ) < qr
      · have h3 : qn < qr := by rw [h0]; exact h2
        simp [jgt_num, h, h0, h2, h3]
      · have h3 : ¬ qn < qr := by rw [h0]; exact h2
        simp [jgt_num, h, h0, h2, h3]
  refine ⟨qn, if qn < qr then qr else qn, hoff, hon, ?_⟩
  by_cases h2 : qn < qr
  · simp [h2, le_of_lt h2]
  · simp [h2]

unseal Rat.add Rat.mul Rat.sub Rat.inv in
/-- C8 witness: scenario A, where both runs pack 4 cartons per layer. -/
theorem C8_rotation_monotonic_witness :
    ∃ a b : ℚ,
      (calculatePalletLoading scenarioACarton scenarioAPallet
        ⟨false, false⟩).cartonsPerLayer = num a ∧
      (calculatePalletLoading scenarioACarton scenarioAPallet
        ⟨true, false⟩).cartonsPerLayer = num b ∧
      a ≤ b :=
  C8_rotation_monotonic_theorem scenarioACarton scenarioAPallet false
    (by decide) (by decide) (by decide) (by decide)

unseal Rat.add Rat.mul Rat.sub Rat.inv in
/-- C8 counterexample: for a 15 by 10 by 45 carton of 1 kg on a 200 by 190
pallet with stack limits 300 cm and 1482 kg, the 3D layout module packs
240 cartons per layer when rotation is enabled (the rotated candidate wins
on its +50 score bonus) but 247 when rotation is disabled. -/
theorem C8_counterexample :
    (Layout3D.calculatePalletLayout (mkCartonDims rotationBiasCarton)
        (mkPalletDims rotationBiasPallet) ⟨true, false⟩).map
      (fun L => L.cartonsPerLayer) = some (num 240) ∧
    (Layout3D.calculatePalletLayout (mkCartonDims rotationBiasCarton)
        (mkPalletDims rotationBiasPallet) ⟨false, false⟩).map
      (fun L => L.cartonsPerLayer) = some (num 247) ∧
    ¬ ((247 : ℚ) ≤ 240) := by decide

namespace Layout3D

/-- Any property preserved by the fold step holds of the fold result. -/
theorem foldl_preserve {α β : Type} (P : α → Prop) (f : α → β → α)
    (hf : ∀ a b, P a → P (f a b)) : ∀ (l : List β) (a : α), P a → P (l.foldl f a) := by
  intro l
  induction l with
  | nil => intro a ha; exact ha
  | cons b l ih => intro a ha; exact ih (f a b) (hf a b ha)

/-- A non-null result of the orientation loop is one of the loop's
single-orientation layouts and passed the positive totalCartons test. -/
theorem orientationStep_sources (cd : CartonDims) (pd : PalletDims) (L : PalletLayout) :
    ∀ (os : List Orientation3D) (acc : Option PalletLayout × JSNum),
      (os.foldl (orientationStep cd pd) acc).1 = some L →
      acc.1 = some L ∨
        ∃ o ∈ os, L = calculateSingleOrientation cd pd o ∧
          jgt L.totalCartons (num 0) = true := by
  intro os
  induction os with
  | nil => intro acc h; exact Or.inl h
  | cons o os ih =>
    intro acc h
    rw [List.foldl_cons] at h
    rcases ih (orientationStep cd pd acc o) h with h2 | ⟨o2, ho2, hL, hT⟩
    · unfold orientationStep at h2
      dsimp only at h2
      split_ifs at h2 with h3 h4
      · have hL : calculateSingleOrientation cd pd o = L := Option.some.inj h2
        exact Or.inr ⟨o, List.mem_cons_self o os, hL.symm, hL ▸ h3⟩
      · exact Or.inl h2
      · exact Or.inl h2
    · exact Or.inr ⟨o2, List.mem_cons_of_mem o ho2, hL, hT⟩

/-- A non-null pallet layout comes from one of the two single
orientations (with positive totalCartons) or from the mixed-row
search. -/
theorem palletLayout_sources (cd : CartonDims) (pd : PalletDims) (st : CalcSettings)
    (L : PalletLayout) (h : calculatePalletLayout cd pd st = some L) :
    (∃ o : Orientation3D,
      (o = { l := cd.length, w := cd.width, h := cd.height, rotation := 0 } ∨
       o = { l := cd.width, w := cd.length, h := cd.height, rotation := 90 }) ∧
      L = calculateSingleOrientation cd pd o ∧
      jgt L.totalCartons (num 0) = true) ∨
    calculateMixedRowLayout cd pd st = some L := by
  have main := h
  unfold calculatePalletLayout at main
  cases hrot : st.enableRotation <;> rw [hrot] at main <;>
    simp only [Bool.false_eq_true, if_false, if_true] at main <;>
    rcases hmix : calculateMixedRowLayout cd pd st with _ | mixed <;>
    rw [hmix] at main <;> dsimp only at main
  case false.none =>
    rcases orientationStep_sources cd pd L _ _ main with h2 | ⟨o, ho, hL, hT⟩
    · exact absurd h2 (by simp)
    · simp only [List.mem_singleton] at ho
      exact Or.inl ⟨o, Or.inl ho, hL, hT⟩
  case false.some =>
    split_ifs at main with hsc
    · exact Or.inr (congrArg some (Option.some.inj main))
    · rcases orientationStep_sources cd pd L _ _ main with h2 | ⟨o, ho, hL, hT⟩
      · exact absurd h2 (by simp)
      · simp only [List.mem_singleton] at ho
        exact Or.inl ⟨o, Or.inl ho, hL, hT⟩
  case true.none =>
    rcases orientationStep_sources cd pd L _ _ main with h2 | ⟨o, ho, hL, hT⟩
    · exact absurd h2 (by simp)
    · simp only [List.mem_cons, List.mem_singleton, List.not_mem_nil, or_false] at ho
      exact Or.inl ⟨o, ho, hL, hT⟩
  case true.some =>
    split_ifs at main with hsc
    · exact Or.inr (congrArg some (Option.some.inj main))
    · rcases orientationStep_sources cd pd L _ _ main with h2 | ⟨o, ho, hL, hT⟩
      · exact absurd h2 (by simp)
      · simp only [List.mem_cons, List.mem_singleton, List.not_mem_nil, or_false] at ho
        exact Or.inl ⟨o, ho, hL, hT⟩

/-- The numeric fields of a single-orientation layout are finite numbers:
the cartons per layer is a nonnegative number, the layer count a
nonnegative number, and totalCartons their product. -/
theorem calculateSingleOrientation_shape (cd : CartonDims) (pd : PalletDims)
    (o : Orientation3D) (hl : 0 < o.l) (hw : 0 < o.w) (hh : 0 < o.h)
    (hpl : 0 ≤ pd.length) (hpw : 0 ≤ pd.width)
    (hmh : 0 < pd.maxHeight) (hmw : 0 < pd.maxWeight) (hcw : 0 < cd.weight) :
    ∃ x m : ℚ, (calculateSingleOrientation cd pd o).cartonsPerLayer = num x ∧ 0 ≤ x ∧
      (calculateSingleOrientation cd pd o).maxLayers = num m ∧ 0 ≤ m ∧
      (calculateSingleOrientation cd pd o).totalCartons = num (x * m) := by
  have e0 : (calculateSingleOrientation cd pd o).cartonsPerLayer
      = jmul (jfloor (jdiv (num pd.length) (num o.l)))
          (jfloor (jdiv (num pd.width) (num o.w))) := rfl
  have e2 : (calculateSingleOrientation cd pd o).maxLayers
      = jmin (jfloor (jdiv (num pd.maxHeight) (num o.h)))
          (jfloor (jdiv (num pd.maxWeight)
            (jmul (calculateSingleOrientation cd pd o).cartonsPerLayer
              (num cd.weight)))) := rfl
  have e1 : (calculateSingleOrientation cd pd o).totalCartons
      = jmul (calculateSingleOrientation cd pd o).cartonsPerLayer
          (calculateSingleOrientation cd pd o).maxLayers := rfl
  have ecpl : (calculateSingleOrientation cd pd o).cartonsPerLayer
      = num (((⌊pd.length / o.l⌋ : ℤ) : ℚ) * ((⌊pd.width / o.w⌋ : ℤ) : ℚ)) := by
    rw [e0, jdiv_num hl.ne', jdiv_num hw.ne', jfloor_num, jfloor_num, jmul_num]
  set x : ℚ := ((⌊pd.length / o.l⌋ : ℤ) : ℚ) * ((⌊pd.width / o.w⌋ : ℤ) : ℚ) with hx
  have hx0 : 0 ≤ x := by
    have i1 : (0:ℤ) ≤ ⌊pd.length / o.l⌋ := Int.floor_nonneg.2 (div_nonneg hpl hl.le)
    have i2 : (0:ℤ) ≤ ⌊pd.width / o.w⌋ := Int.floor_nonneg.2 (div_nonneg hpw hw.le)
    rw [hx]; positivity
  have ebh : jfloor (jdiv (num pd.maxHeight) (num o.h))
      = num ((⌊pd.maxHeight / o.h⌋ : ℤ) : ℚ) := by
    rw [jdiv_num hh.ne', jfloor_num]
  have hbh0 : (0:ℚ) ≤ ((⌊pd.maxHeight / o.h⌋ : ℤ) : ℚ) := by
    have := Int.floor_nonneg.2 (div_nonneg hmh.le hh.le)
    exact_mod_cast this
  by_cases hxz : x = 0
  · have emL : (calculateSingleOrientation cd pd o).maxLayers
        = num ((⌊pd.maxHeight / o.h⌋ : ℤ) : ℚ) := by
      rw [e2, ecpl, hxz, jmul_num, zero_mul, jdiv_num_zero hmw, ebh]
      rfl
    refine ⟨x, _, ecpl, hx0, emL, hbh0, ?_⟩
    rw [e1, ecpl, emL, jmul_num]
  · have hxpos : 0 < x := lt_of_le_of_ne hx0 (Ne.symm hxz)
    have hden : 0 < x * cd.weight := mul_pos hxpos hcw
    have emL : (calculateSingleOrientation cd pd o).maxLayers
        = num (min ((⌊pd.maxHeight / o.h⌋ : ℤ) : ℚ)
            ((⌊pd.maxWeight / (x * cd.weight)⌋ : ℤ) : ℚ)) := by
      rw [e2, ecpl, jmul_num, jdiv_num hden.ne', ebh, jfloor_num, jmin_num]
    have hm0 : (0:ℚ) ≤ min ((⌊pd.maxHeight / o.h⌋ : ℤ) : ℚ)
        ((⌊pd.maxWeight / (x * cd.weight)⌋ : ℤ) : ℚ) := by
      have i3 : (0:ℤ) ≤ ⌊pd.maxWeight / (x * cd.weight)⌋ :=
        Int.floor_nonneg.2 (div_nonneg hmw.le hden.le)
      have i3q : (0:ℚ) ≤ ((⌊pd.maxWeight / (x * cd.weight)⌋ : ℤ) : ℚ) := by exact_mod_cast i3
      exact le_min hbh0 i3q
    refine ⟨x, _, ecpl, hx0, emL, hm0, ?_⟩
    rw [e1, ecpl, emL, jmul_num]

end Layout3D

namespace Layout3D

/-- The mixed-row fold keeps a number in the perLayer slot. -/
theorem mixedRowFold_num (cd : CartonDims) (pd : PalletDims)
    (hcl : cd.length ≠ 0) (hcw : cd.width ≠ 0) (l : List ℕ) :
    ∃ v : ℚ, (l.foldl (mixedRowStep cd pd)
      ((num 0 : JSNum), (0 : ℕ), (num 0 : JSNum))).2.2 = num v := by
  refine foldl_preserve (fun s => ∃ v : ℚ, s.2.2 = num v) (mixedRowStep cd pd) ?_ l
    ((num 0 : JSNum), (0 : ℕ), (num 0 : JSNum)) ⟨0, rfl⟩
  intro s b hs
  rcases hs with ⟨v, hv⟩
  unfold mixedRowStep
  dsimp only
  split_ifs with hgt
  · simp only [jsub_num, jdiv_num hcw, jfloor_num, jdiv_num hcl, jmul_num, jadd_num]
    exact ⟨_, rfl⟩
  · exact ⟨v, hv⟩

/-- The numeric fields of a non-null mixed-row layout: cartonsPerLayer is
a positive number, maxLayers a nonnegative number, totalCartons their
product. -/
theorem calculateMixedRowLayout_shape (cd : CartonDims) (pd : PalletDims)
    (st : CalcSettings) (L : PalletLayout)
    (hcl : 0 < cd.length) (hcw : 0 < cd.width) (hch : 0 < cd.height)
    (_hcwt : 0 < cd.weight) (hmh : 0 < pd.maxHeight) (hmw : 0 < pd.maxWeight)
    (h : calculateMixedRowLayout cd pd st = some L) :
    ∃ p m : ℚ, L.cartonsPerLayer = num p ∧ 0 < p ∧
      L.maxLayers = num m ∧ 0 ≤ m ∧ L.totalCartons = num (p * m) := by
  unfold calculateMixedRowLayout at h
  dsimp only at h
  rcases mixedRowFold_num cd pd hcl.ne' hcw.ne'
    (List.range (jIterations (jadd (jfloor (jdiv (num pd.width) (num cd.length)))
      (num 1)))) with ⟨p, hp⟩
  rw [hp] at h
  by_cases b1 : (!st.enableRotation) = true
  · rw [if_pos b1] at h; exact Option.noConfusion h
  rw [if_neg b1] at h
  by_cases b2 : jfloor (jdiv (num pd.length) (num cd.length)) = num 0 ∧
      jfloor (jdiv (num pd.length) (num cd.width)) = num 0
  · rw [if_pos b2] at h; exact Option.noConfusion h
  rw [if_neg b2] at h
  by_cases b3 : p ≤ 0
  · rw [if_pos (by simp [jle_num, b3])] at h; exact Option.noConfusion h
  have hppos : 0 < p := not_le.1 b3
  rw [if_neg (by simp [jle_num, b3])] at h
  obtain rfl := (Option.some.inj h).symm
  have ebh : jfloor (jdiv (num pd.maxHeight) (num cd.height))
      = num ((⌊pd.maxHeight / cd.height⌋ : ℤ) : ℚ) := by
    rw [jdiv_num hch.ne', jfloor_num]
  have hbh0 : (0:ℚ) ≤ ((⌊pd.maxHeight / cd.height⌋ : ℤ) : ℚ) := by
    have := Int.floor_nonneg.2 (div_nonneg hmh.le hch.le)
    exact_mod_cast this
  have hdenpos : (0:ℚ) < max 1 (p * cd.weight) := lt_max_of_lt_left one_pos
  have ebw : jfloor (jdiv (num pd.maxWeight) (jmax (num 1) (jmul (num p) (num cd.weight))))
      = num ((⌊pd.maxWeight / max 1 (p * cd.weight)⌋ : ℤ) : ℚ) := by
    rw [jmul_num, jmax_num, jdiv_num hdenpos.ne', jfloor_num]
  have hbw0 : (0:ℚ) ≤ ((⌊pd.maxWeight / max 1 (p * cd.weight)⌋ : ℤ) : ℚ) := by
    have := Int.floor_nonneg.2 (div_nonneg hmw.le hdenpos.le)
    exact_mod_cast this
  refine ⟨p, min ((⌊pd.maxHeight / cd.height⌋ : ℤ) : ℚ)
      ((⌊pd.maxWeight / max 1 (p * cd.weight)⌋ : ℤ) : ℚ), rfl, hppos, ?_, le_min hbh0 hbw0, ?_⟩
  · show jmin (jfloor (jdiv (num pd.maxHeight) (num cd.height)))
        (jfloor (jdiv (num pd.maxWeight) (jmax (num 1) (jmul (num p) (num cd.weight))))) = _
    rw [ebh, ebw, jmin_num]
  · show jmul (num p) (jmin (jfloor (jdiv (num pd.maxHeight) (num cd.height)))
        (jfloor (jdiv (num pd.maxWeight) (jmax (num 1) (jmul (num p) (num cd.weight)))))) = _
    rw [ebh, ebw, jmin_num, jmul_num]

end Layout3D

/-! Claim C7: non-null pallet layouts. -/

/-- C7 (corrected): a non-null result of calculatePalletLayout always has
a positive (finite) cartonsPerLayer; its totalCartons, however, can be
zero (see the counterexample), so the claim's totalCartons > 0 does not
hold as stated. -/
theorem C7_nonnull_positive_theorem (cd : CartonDims) (pd : PalletDims)
    (st : CalcSettings) (L : PalletLayout) (hpos : PosDims cd pd)
    (h : Layout3D.calculatePalletLayout cd pd st = some L) :
    ∃ p : ℚ, L.cartonsPerLayer = num p ∧ 0 < p := by
  obtain ⟨h1, h2, h3, h4, h5, h6, h7, h8⟩ := hpos
  rcases Layout3D.palletLayout_sources cd pd st L h with ⟨o, ho, hL, hT⟩ | hmix
  · have hol : 0 < o.l ∧ 0 < o.w ∧ 0 < o.h := by
      rcases ho with rfl | rfl
      · exact ⟨h1, h2, h3⟩
      · exact ⟨h2, h1, h3⟩
    obtain ⟨x, m, hcpl, hx0, hmL, hm0, htot⟩ :=
      Layout3D.calculateSingleOrientation_shape cd pd o hol.1 hol.2.1 hol.2.2
        h5 h6 h7 h8 h4
    subst hL
    rw [htot, jgt_num, decide_eq_true_eq] at hT
    have hxne : x ≠ 0 := by
      intro h0
      rw [h0, zero_mul] at hT
      exact lt_irrefl 0 hT
    exact ⟨x, hcpl, hx0.lt_of_ne (Ne.symm hxne)⟩
  · obtain ⟨p, m, hcpl, hppos, _, _, _⟩ :=
      Layout3D.calculateMixedRowLayout_shape cd pd st L h1 h2 h3 h4 h7 h8 hmix
    exact ⟨p, hcpl, hppos⟩

unseal Rat.add Rat.mul Rat.sub Rat.inv in
/-- C7 witness: a carton filling its pallet exactly once; the returned
layout has cartonsPerLayer 1. -/
theorem C7_nonnull_positive_witness :
    ∃ p : ℚ,
      (⟨num 1, num 1, num 1, [⟨0, 0, 0, 0, "LWH", 0, 0⟩], .mixed 1 0, num 1,
        num 1⟩ : PalletLayout).cartonsPerLayer = num p ∧ 0 < p :=
  C7_nonnull_positive_theorem (mkCartonDims cubeCarton) (mkPalletDims cubePallet)
    ⟨true, false⟩ _ (by decide) (by decide)

unseal Rat.add Rat.mul Rat.sub Rat.inv in
/-- C7 counterexample: a single carton layer already exceeds the stack
weight limit, so every pure-orientation candidate has totalCartons 0 and
is skipped, yet the mixed-row candidate (whose score adds efficiency and
utilization terms plus 75 to a zero carton count) is selected:
calculatePalletLayout returns a non-null layout with totalCartons = 0
instead of null. -/
theorem C7_counterexample :
    (Layout3D.calculatePalletLayout (mkCartonDims scenarioCCarton)
        (mkPalletDims scenarioAPallet) scenarioCSettings).map
      (fun L => L.totalCartons) = some (num 0) ∧
    (Layout3D.calculatePalletLayout (mkCartonDims scenarioCCarton)
        (mkPalletDims scenarioAPallet) scenarioCSettings).isSome = true := by
  decide

/-! Claim C1: quantity conservation. -/

/-- The truthiness fallback of a nonnegative field with a positive default
is positive. -/
theorem orDefault_pos {x d : ℚ} (hx : 0 ≤ x) (hd : 0 < d) : 0 < orDefault x d := by
  unfold orDefault
  split_ifs with h
  · exact hd
  · exact lt_of_le_of_ne hx (Ne.symm h)

/-- The engine-shape of a non-null pallet layout: positive cartons per
layer, nonnegative layer count, totalCartons their product. -/
theorem palletLayout_shape (cd : CartonDims) (pd : PalletDims) (st : CalcSettings)
    (L : PalletLayout) (hpos : PosDims cd pd)
    (h : Layout3D.calculatePalletLayout cd pd st = some L) :
    ∃ p m : ℚ, L.cartonsPerLayer = num p ∧ 0 < p ∧ L.maxLayers = num m ∧ 0 ≤ m ∧
      L.totalCartons = num (p * m) ∧ 0 ≤ p * m := by
  obtain ⟨h1, h2, h3, h4, h5, h6, h7, h8⟩ := hpos
  rcases Layout3D.palletLayout_sources cd pd st L h with ⟨o, ho, hL, hT⟩ | hmix
  · have hol : 0 < o.l ∧ 0 < o.w ∧ 0 < o.h := by
      rcases ho with rfl | rfl
      · exact ⟨h1, h2, h3⟩
      · exact ⟨h2, h1, h3⟩
    obtain ⟨x, m, hcpl, hx0, hmL, hm0, htot⟩ :=
      Layout3D.calculateSingleOrientation_shape cd pd o hol.1 hol.2.1 hol.2.2
        h5 h6 h7 h8 h4
    subst hL
    rw [htot, jgt_num, decide_eq_true_eq] at hT
    have hxne : x ≠ 0 := by
      intro h0
      rw [h0, zero_mul] at hT
      exact lt_irrefl 0 hT
    exact ⟨x, m, hcpl, hx0.lt_of_ne (Ne.symm hxne), hmL, hm0, htot,
      mul_nonneg hx0 hm0⟩
  · obtain ⟨p2, m, hcpl, hppos, hmL, hm0, htot⟩ :=
      Layout3D.calculateMixedRowLayout_shape cd pd st L h1 h2 h3 h4 h7 h8 hmix
    exact ⟨p2, m, hcpl, hppos, hmL, hm0, htot, mul_nonneg hppos.le hm0⟩

/-- The container layout of a shaped pallet layout has a finite numeric
totalPallets. -/
theorem containerLayout_totalPallets_num (cd : CartonDims) (pd : PalletDims)
    (kd : ContainerDims) (L : PalletLayout) (m t : ℚ)
    (hh : 0 < pd.height) (hch : 0 ≤ cd.height)
    (hpl : 0 < pd.length) (hpw : 0 < pd.width) (hkmw : 0 < kd.maxWeight)
    (hm : L.maxLayers = num m) (hm0 : 0 ≤ m) (ht : L.totalCartons = num t) :
    ∃ ap : ℚ, (Layout3D.calculateContainerLayout cd pd kd (some L)).totalPallets = num ap := by
  unfold Layout3D.calculateContainerLayout
  dsimp only
  have esh : jadd (num pd.height) (jmul L.maxLayers (num cd.height))
      = num (pd.height + m * cd.height) := by rw [hm, jmul_num, jadd_num]
  have hsh : 0 < pd.height + m * cd.height := by
    have := mul_nonneg hm0 hch
    linarith
  rw [esh, ht, jdiv_num hpl.ne', jdiv_num hpw.ne', jdiv_num hsh.ne', jfloor_num,
    jfloor_num, jfloor_num, jmul_num, jmul_num, jmul_num]
  by_cases htz : t * cd.weight = 0
  · rw [htz, jdiv_num_zero hkmw]
    exact ⟨_, rfl⟩
  · rw [jdiv_num htz, jfloor_num, jmin_num]
    exact ⟨_, rfl⟩

/-- C1 (corrected): quantity conservation holds in the composed 3D layout
for every valid input, and in the report summary whenever the computed
cartonsPerPallet is positive.  When cartonsPerPallet is 0 the summary's
cartonsPlaced and remainingCartons are NaN and the identity fails (see the
counterexample), because calculator.js divides the quantity by
cartonsPerPallet without a guard. -/
theorem C1_quantity_conservation_theorem :
    (∀ (c : CartonData) (p : PalletData) (k : ContainerData) (s : CalcSettings)
       (ts : String) (cpp : ℚ),
       (calculatePalletLoading c p s).cartonsPerPallet = num cpp → 0 < cpp →
       jadd (generateOptimizationReport c p k s ts).summary.cartonsPlaced
           (generateOptimizationReport c p k s ts).summary.remainingCartons
         = num c.quantity) ∧
    (∀ (c : CartonData) (p : PalletData) (k : ContainerData) (s : CalcSettings)
       (ts : String), ValidInput c p k →
       jadd (generateOptimizationReport c p k s ts).layout3D.totalCartons
           (generateOptimizationReport c p k s ts).layout3D.remainingCartons
         = num c.quantity) := by
  constructor
  · intro c p k s ts cpp hc hpos
    have e0 : (generateOptimizationReport c p k s ts).summary.cartonsPlaced
        = (calculatePalletLoading c p s).totalCartonsPlaced := rfl
    have e0b : (generateOptimizationReport c p k s ts).summary.remainingCartons
        = (calculatePalletLoading c p s).remainingCartons := rfl
    have e1 : (calculatePalletLoading c p s).totalCartonsPlaced
        = jmin (num c.quantity) (jmul (calculatePalletLoading c p s).palletsNeeded
            (calculatePalletLoading c p s).cartonsPerPallet) := rfl
    have e2 : (calculatePalletLoading c p s).palletsNeeded
        = jceil (jdiv (num c.quantity) (calculatePalletLoading c p s).cartonsPerPallet) := rfl
    have e3 : (calculatePalletLoading c p s).remainingCartons
        = jsub (num c.quantity) (calculatePalletLoading c p s).totalCartonsPlaced := rfl
    rw [e0, e0b, e3, e1, e2, hc, jdiv_num hpos.ne', jceil_num, jmul_num, jmin_num,
      jsub_num, jadd_num]
    congr 1
    ring
  · intro c p k s ts hv
    obtain ⟨h1, h2, h3, h4, h5, h6, h7, h8, h9, h10, h11, h12, h13, h14⟩ := hv
    have e0 : (generateOptimizationReport c p k s ts).layout3D
        = Layout3D.calculateComplete3DLayout c p k s := rfl
    rw [e0]
    have hpos : PosDims (mkCartonDims c) (mkPalletDims p) :=
      ⟨h1, h2, h3, h4, h6.le, h7.le, orDefault_pos h9 (by norm_num),
        orDefault_pos h10 (by norm_num)⟩
    unfold Layout3D.calculateComplete3DLayout
    rcases hPL : Layout3D.calculatePalletLayout (mkCartonDims c) (mkPalletDims p) s
      with _ | L
    · dsimp only
      rw [hPL]
      dsimp only
      rw [jadd_num, zero_add]
    · dsimp only
      rw [hPL]
      dsimp only
      obtain ⟨pl, m, hcpl, hplpos, hmL, hm0, htot, htot0⟩ :=
        palletLayout_shape (mkCartonDims c) (mkPalletDims p) s L hpos hPL
      obtain ⟨ap, hap⟩ := containerLayout_totalPallets_num (mkCartonDims c) (mkPalletDims p)
        (mkContainerDims k) L m (pl * m) h8 h3.le h6 h7
        (orDefault_pos h14 (by norm_num)) hmL hm0 htot
      rw [hap, htot]
      by_cases htz : pl * m = 0
      · rw [htz, jdiv_num_zero h5, jceil_inf]
        have : jmin JSNum.inf (num ap) = num ap := rfl
        rw [this, jmul_num, jmin_num, jsub_num, jmax_num, jadd_num]
        congr 1
        rw [max_eq_right (sub_nonneg.2 (min_le_left _ _))]
        ring
      · rw [jdiv_num htz, jceil_num, jmin_num, jmul_num, jmin_num, jsub_num, jmax_num,
          jadd_num]
        congr 1
        rw [max_eq_right (sub_nonneg.2 (min_le_left _ _))]
        ring

unseal Rat.add Rat.mul Rat.sub Rat.inv in
/-- C1 witness: both conservation identities at scenario A, whose
cartonsPerPallet is 32. -/
theorem C1_quantity_conservation_witness :
    jadd (generateOptimizationReport scenarioACarton scenarioAPallet scenarioAContainer
          scenarioASettings "t").summary.cartonsPlaced
        (generateOptimizationReport scenarioACarton scenarioAPallet scenarioAContainer
          scenarioASettings "t").summary.remainingCartons
      = num scenarioACarton.quantity ∧
    jadd (generateOptimizationReport scenarioACarton scenarioAPallet scenarioAContainer
          scenarioASettings "t").layout3D.totalCartons
        (generateOptimizationReport scenarioACarton scenarioAPallet scenarioAContainer
          scenarioASettings "t").layout3D.remainingCartons
      = num scenarioACarton.quantity :=
  ⟨C1_quantity_conservation_theorem.1 scenarioACarton scenarioAPallet scenarioAContainer
      scenarioASettings "t" 32 (by decide) (by decide),
    C1_quantity_conservation_theorem.2 scenarioACarton scenarioAPallet scenarioAContainer
      scenarioASettings "t" (by decide)⟩

unseal Rat.add Rat.mul Rat.sub Rat.inv in
/-- C1 counterexample: a carton too large for the pallet gives
cartonsPerPallet 0; the summary's cartonsPlaced and remainingCartons are
NaN, and their sum is NaN, not the requested quantity. -/
theorem C1_counterexample :
    jadd (generateOptimizationReport oversizedCarton scenarioAPallet scenarioAContainer
          scenarioASettings "t").summary.cartonsPlaced
        (generateOptimizationReport oversizedCarton scenarioAPallet scenarioAContainer
          scenarioASettings "t").summary.remainingCartons
      ≠ num oversizedCarton.quantity := by decide

namespace JSNum

theorem jIterations_jfloor_jdiv {d : ℚ} (hd : d ≠ 0) (D : ℚ) :
    jIterations (jfloor (jdiv (num D) (num d))) = (⌊D / d⌋).toNat := by
  rw [jdiv_num hd, jfloor_num, jIterations_num, Int.floor_intCast]

end JSNum

/-- A grid index below floor(D / d) keeps the cell within the extent D. -/
theorem cell_bound {D d : ℚ} (hd : 0 < d) {n : ℕ} (hn : n < (⌊D / d⌋).toNat) :
    (n : ℚ) * d + d ≤ D := by
  have h1 : (n + 1 : ℤ) ≤ ⌊D / d⌋ := by omega
  have h2 : ((n : ℚ) + 1) ≤ ((⌊D / d⌋ : ℤ) : ℚ) := by exact_mod_cast h1
  have h4 : (n : ℚ) + 1 ≤ D / d := h2.trans (Int.floor_le _)
  calc (n : ℚ) * d + d = ((n : ℚ) + 1) * d := by ring
    _ ≤ (D / d) * d := mul_le_mul_of_nonneg_right h4 hd.le
    _ = D := div_mul_cancel₀ D hd.ne'

namespace Layout3D

/-- Every placement of a single-orientation layout stays within the
pallet footprint and below the stack ceiling. -/
theorem singleOrientation_bounds (cd : CartonDims) (pd : PalletDims) (o : Orientation3D)
    (hl : 0 < o.l) (hw : 0 < o.w) (hh : 0 < o.h) :
    ∀ p ∈ (calculateSingleOrientation cd pd o).cartonPositions,
      p.x + o.l ≤ pd.length ∧ p.y + o.w ≤ pd.width ∧ p.z + o.h ≤ pd.maxHeight := by
  intro p hp
  simp only [calculateSingleOrientation, List.mem_flatMap, List.mem_map,
    List.mem_range] at hp
  obtain ⟨layer, hlayer, y, hy, x, hx, rfl⟩ := hp
  refine ⟨?_, ?_, ?_⟩
  · show (x : ℚ) * o.l + o.l ≤ pd.length
    rw [jIterations_jfloor_jdiv hl.ne'] at hx
    exact cell_bound hl hx
  · show (y : ℚ) * o.w + o.w ≤ pd.width
    rw [jIterations_jfloor_jdiv hw.ne'] at hy
    exact cell_bound hw hy
  · show (layer : ℚ) * o.h + o.h ≤ pd.maxHeight
    rw [jdiv_num hh.ne', jfloor_num] at hlayer
    have hlayer2 : layer < jIterations (num ((⌊pd.maxHeight / o.h⌋ : ℤ) : ℚ)) :=
      lt_of_lt_of_le hlayer (jIterations_jmin_le_left _ _)
    rw [jIterations_num, Int.floor_intCast] at hlayer2
    exact cell_bound hh hlayer2

end Layout3D

/-- The grid key list of a triple loop over layers, rows and columns has
no duplicates. -/
theorem tripleRange_nodup (nL nY nX : ℕ) :
    ((List.range nL).flatMap (fun layer => (List.range nY).flatMap (fun y =>
      (List.range nX).map (fun x => ((layer, x, y) : ℕ × ℕ × ℕ))))).Nodup := by
  rw [List.nodup_flatMap]
  constructor
  · intro layer _
    rw [List.nodup_flatMap]
    constructor
    · intro y _
      exact (List.nodup_range nX).map (fun a b hab => by simpa using hab)
    · refine (List.nodup_range nY).imp ?_
      intro y1 y2 hne
      simp only [Function.onFun]
      intro k hk1 hk2
      simp only [List.mem_map, List.mem_range] at hk1 hk2
      obtain ⟨x1, _, h1⟩ := hk1
      obtain ⟨x2, _, h2⟩ := hk2
      exact hne (congrArg (fun t => t.2.2) (h1.trans h2.symm))
  · refine (List.nodup_range nL).imp ?_
    intro l1 l2 hne
    simp only [Function.onFun]
    intro k hk1 hk2
    simp only [List.mem_flatMap, List.mem_map, List.mem_range] at hk1 hk2
    obtain ⟨y1, _, x1, _, h1⟩ := hk1
    obtain ⟨y2, _, x2, _, h2⟩ := hk2
    exact hne (congrArg (fun t => t.1) (h1.trans h2.symm))

namespace Layout3D

/-- No two placements of a single-orientation layout share a layer and
grid cell: the (layer, gridX, gridY) keys are pairwise distinct. -/
theorem singleOrientation_nodup (cd : CartonDims) (pd : PalletDims) (o : Orientation3D) :
    ((calculateSingleOrientation cd pd o).cartonPositions.map
      (fun p => (p.layer, p.gridX, p.gridY))).Nodup := by
  simp only [calculateSingleOrientation, List.map_flatMap, List.map_map]
  exact tripleRange_nodup _ _ _

end Layout3D

/-- The grid key list of a mixed-row layer loop (first the rotated rows,
then the as-given rows with shifted row indices) has no duplicates. -/
theorem mixedRange_nodup (nL bN n90 aN n0 : ℕ) :
    ((List.range nL).flatMap (fun layer =>
      ((List.range bN).flatMap (fun r =>
        (List.range n90).map (fun x => ((layer, x, r) : ℕ × ℕ × ℕ))))
      ++ ((List.range aN).flatMap (fun r =>
        (List.range n0).map (fun x => ((layer, x, bN + r) : ℕ × ℕ × ℕ)))))).Nodup := by
  rw [List.nodup_flatMap]
  constructor
  · intro layer _
    rw [List.nodup_append]
    refine ⟨?_, ?_, ?_⟩
    · rw [List.nodup_flatMap]
      constructor
      · intro r _
        exact (List.nodup_range n90).map (fun a b hab => by simpa using hab)
      · refine (List.nodup_range bN).imp ?_
        intro r1 r2 hne
        simp only [Function.onFun]
        intro k hk1 hk2
        simp only [List.mem_map, List.mem_range] at hk1 hk2
        obtain ⟨x1, _, h1⟩ := hk1
        obtain ⟨x2, _, h2⟩ := hk2
        exact hne (congrArg (fun t => t.2.2) (h1.trans h2.symm))
    · rw [List.nodup_flatMap]
      constructor
      · intro r _
        exact (List.nodup_range n0).map (fun a b hab => by simpa using hab)
      · refine (List.nodup_range aN).imp ?_
        intro r1 r2 hne
        simp only [Function.onFun]
        intro k hk1 hk2
        simp only [List.mem_map, List.mem_range] at hk1 hk2
        obtain ⟨x1, _, h1⟩ := hk1
        obtain ⟨x2, _, h2⟩ := hk2
        have h3 : bN + r1 = bN + r2 := congrArg (fun t => t.2.2) (h1.trans h2.symm)
        exact hne (by omega)
    · intro k hk1 hk2
      simp only [List.mem_flatMap, List.mem_map, List.mem_range] at hk1 hk2
      obtain ⟨r1, hr1, x1, _, h1⟩ := hk1
      obtain ⟨r2, _, x2, _, h2⟩ := hk2
      have h3 : r1 = bN + r2 := congrArg (fun t => t.2.2) (h1.trans h2.symm)
      omega
  · refine (List.nodup_range nL).imp ?_
    intro l1 l2 hne
    simp only [Function.onFun]
    intro k hk1 hk2
    have e1 : k.1 = l1 := by
      rcases List.mem_append.1 hk1 with h | h <;>
        · simp only [List.mem_flatMap, List.mem_map, List.mem_range] at h
          obtain ⟨r, _, x, _, hx⟩ := h
          exact (congrArg (fun t => t.1) hx).symm
    have e2 : k.1 = l2 := by
      rcases List.mem_append.1 hk2 with h | h <;>
        · simp only [List.mem_flatMap, List.mem_map, List.mem_range] at h
          obtain ⟨r, _, x, _, hx⟩ := h
          exact (congrArg (fun t => t.1) hx).symm
    exact hne (e1.symm.trans e2)

/-- Fold preservation with membership of the traversed element. -/
theorem foldl_preserve_mem {α β : Type} (P : α → Prop) (f : α → β → α) :
    ∀ (l : List β), (∀ a b, b ∈ l → P a → P (f a b)) → ∀ a, P a → P (l.foldl f a) := by
  intro l
  induction l with
  | nil => intro _ a ha; exact ha
  | cons b l ih =>
    intro hf a ha
    exact ih (fun a2 b2 hb2 => hf a2 b2 (List.mem_cons_of_mem b hb2))
      (f a b) (hf a b (List.mem_cons_self b l) ha)

namespace Layout3D

/-- Every placement of a non-null mixed-row layout stays within the
pallet footprint (with the footprint extents of its own row type) and
below the stack ceiling. -/
theorem mixedRowLayout_bounds (cd : CartonDims) (pd : PalletDims) (st : CalcSettings)
    (L : PalletLayout) (hcl : 0 < cd.length) (hcw : 0 < cd.width) (hch : 0 < cd.height)
    (hpw : 0 ≤ pd.width)
    (h : calculateMixedRowLayout cd pd st = some L) :
    ∀ p ∈ L.cartonPositions,
      (p.rotation = "WLH" → p.x + cd.width ≤ pd.length ∧ p.y + cd.length ≤ pd.width) ∧
      (p.rotation = "LWH" → p.x + cd.length ≤ pd.length ∧ p.y + cd.width ≤ pd.width) ∧
      p.z + cd.height ≤ pd.maxHeight := by
  have hfloor0 : (0:ℤ) ≤ ⌊pd.width / cd.length⌋ :=
    Int.floor_nonneg.2 (div_nonneg hpw hcl.le)
  have hbIter : jIterations (jadd (jfloor (jdiv (num pd.width) (num cd.length))) (num 1))
      = (⌊pd.width / cd.length⌋ + 1).toNat := by
    rw [jdiv_num hcl.ne', jfloor_num, jadd_num]
    rw [jIterations_num]
    congr 1
    rw [show ((⌊pd.width / cd.length⌋ : ℤ) : ℚ) + 1
        = ((⌊pd.width / cd.length⌋ + 1 : ℤ) : ℚ) by push_cast; ring]
    exact Int.floor_intCast _
  have hinv := foldl_preserve_mem
    (fun s : JSNum × ℕ × JSNum =>
      (s.1 = num 0 ∧ s.2.1 = 0) ∨
      (s.1 = jfloor (jdiv (jsub (num pd.width) (jmul (num (s.2.1 : ℚ)) (num cd.length)))
          (num cd.width)) ∧
        s.2.1 < jIterations (jadd (jfloor (jdiv (num pd.width) (num cd.length))) (num 1))))
    (mixedRowStep cd pd)
    (List.range (jIterations (jadd (jfloor (jdiv (num pd.width) (num cd.length))) (num 1))))
    (by
      intro s b hb hs
      unfold mixedRowStep
      dsimp only
      split_ifs with hgt
      · exact Or.inr ⟨rfl, List.mem_range.1 hb⟩
      · exact hs)
    ((num 0 : JSNum), (0 : ℕ), (num 0 : JSNum)) (Or.inl ⟨rfl, rfl⟩)
  unfold calculateMixedRowLayout at h
  dsimp only at h
  by_cases b1 : (!st.enableRotation) = true
  · rw [if_pos b1] at h; exact Option.noConfusion h
  rw [if_neg b1] at h
  by_cases b2 : jfloor (jdiv (num pd.length) (num cd.length)) = num 0 ∧
      jfloor (jdiv (num pd.length) (num cd.width)) = num 0
  · rw [if_pos b2] at h; exact Option.noConfusion h
  rw [if_neg b2] at h
  by_cases b3 : jle ((List.range (jIterations (jadd (jfloor (jdiv (num pd.width)
      (num cd.length))) (num 1)))).foldl (mixedRowStep cd pd)
      ((num 0 : JSNum), (0 : ℕ), (num 0 : JSNum))).2.2 (num 0) = true
  · rw [if_pos b3] at h; exact Option.noConfusion h
  rw [if_neg b3] at h
  obtain rfl := (Option.some.inj h).symm
  intro p hp
  simp only [List.mem_flatMap, List.mem_append, List.mem_map, List.mem_range] at hp
  obtain ⟨layer, hlayer, hp⟩ := hp
  have hz : (layer : ℚ) * cd.height + cd.height ≤ pd.maxHeight := by
    rw [jdiv_num hch.ne', jfloor_num] at hlayer
    have hlayer2 : layer < jIterations (num ((⌊pd.maxHeight / cd.height⌋ : ℤ) : ℚ)) :=
      lt_of_lt_of_le hlayer (jIterations_jmin_le_left _ _)
    rw [jIterations_num, Int.floor_intCast] at hlayer2
    exact cell_bound hch hlayer2
  rcases hp with ⟨r, hr, x, hx, rfl⟩ | ⟨r, hr, x, hx, rfl⟩
  · -- a rotated row: footprint cd.width along x, cd.length along y
    refine ⟨fun _ => ⟨?_, ?_⟩, fun habs => absurd habs (by simp), hz⟩
    · show (x : ℚ) * cd.width + cd.width ≤ pd.length
      rw [jIterations_jfloor_jdiv hcw.ne'] at hx
      exact cell_bound hcw hx
    · show (r : ℚ) * cd.length + cd.length ≤ pd.width
      have hrlt : r < (⌊pd.width / cd.length⌋).toNat := by
        rcases hinv with ⟨_, hb0⟩ | ⟨_, hblt⟩
        · rw [hb0] at hr; omega
        · have h6 : r + 1 < jIterations (jadd (jfloor (jdiv (num pd.width)
              (num cd.length))) (num 1)) := Nat.lt_of_le_of_lt hr hblt
          rw [hbIter] at h6
          omega
      exact cell_bound hcl hrlt
  · -- an as-given row: footprint cd.length along x, cd.width along y
    refine ⟨fun habs => absurd habs (by simp), fun _ => ⟨?_, ?_⟩, hz⟩
    · show (x : ℚ) * cd.length + cd.length ≤ pd.length
      rw [jIterations_jfloor_jdiv hcl.ne'] at hx
      exact cell_bound hcl hx
    · show ((List.range (jIterations (jadd (jfloor (jdiv (num pd.width)
          (num cd.length))) (num 1)))).foldl (mixedRowStep cd pd)
          ((num 0 : JSNum), (0 : ℕ), (num 0 : JSNum))).2.1 * (cd.length : ℚ)
          + (r : ℚ) * cd.width + cd.width ≤ pd.width
      rcases hinv with ⟨ha0, hb0⟩ | ⟨ha, _⟩
      · rw [ha0] at hr
        simp [jIterations] at hr
      · set B := ((List.range (jIterations (jadd (jfloor (jdiv (num pd.width)
          (num cd.length))) (num 1)))).foldl (mixedRowStep cd pd)
          ((num 0 : JSNum), (0 : ℕ), (num 0 : JSNum))) with hB
        rw [ha] at hr
        rw [jmul_num, jsub_num, jdiv_num hcw.ne', jfloor_num, jIterations_num,
          Int.floor_intCast] at hr
        have := cell_bound hcw hr
        linarith

/-- No two placements of a non-null mixed-row layout share a layer and
grid cell. -/
theorem mixedRowLayout_nodup (cd : CartonDims) (pd : PalletDims) (st : CalcSettings)
    (L : PalletLayout) (h : calculateMixedRowLayout cd pd st = some L) :
    (L.cartonPositions.map (fun p => (p.layer, p.gridX, p.gridY))).Nodup := by
  unfold calculateMixedRowLayout at h
  dsimp only at h
  by_cases b1 : (!st.enableRotation) = true
  · rw [if_pos b1] at h; exact Option.noConfusion h
  rw [if_neg b1] at h
  by_cases b2 : jfloor (jdiv (num pd.length) (num cd.length)) = num 0 ∧
      jfloor (jdiv (num pd.length) (num cd.width)) = num 0
  · rw [if_pos b2] at h; exact Option.noConfusion h
  rw [if_neg b2] at h
  by_cases b3 : jle ((List.range (jIterations (jadd (jfloor (jdiv (num pd.width)
      (num cd.length))) (num 1)))).foldl (mixedRowStep cd pd)
      ((num 0 : JSNum), (0 : ℕ), (num 0 : JSNum))).2.2 (num 0) = true
  · rw [if_pos b3] at h; exact Option.noConfusion h
  rw [if_neg b3] at h
  obtain rfl := (Option.some.inj h).symm
  show (((List.range _).flatMap _).map _).Nodup
  simp only [List.map_flatMap, List.map_append, List.map_map]
  exact mixedRange_nodup _ _ _ _ _

end Layout3D

/-- C9 (confirmed): for positive dimensions, every placement generated by
the single-orientation packer lies within the pallet footprint (x plus
the orientation length, y plus the orientation width) and below the stack
ceiling, and no two of its placements share a layer and grid cell; and
every placement of a non-null mixed-row layout lies within the footprint
with the extents of its own row type (rotated rows occupy width along x
and length along y), below the stack ceiling, with pairwise distinct
layer and grid cell keys. -/
theorem C9_placement_invariants_theorem
    (cd : CartonDims) (pd : PalletDims) (o : Orientation3D) (st : CalcSettings)
    (L : PalletLayout)
    (hl : 0 < o.l) (hw : 0 < o.w) (hh : 0 < o.h)
    (hcl : 0 < cd.length) (hcw : 0 < cd.width) (hch : 0 < cd.height)
    (hpw : 0 ≤ pd.width) :
    (∀ p ∈ (Layout3D.calculateSingleOrientation cd pd o).cartonPositions,
      p.x + o.l ≤ pd.length ∧ p.y + o.w ≤ pd.width ∧ p.z + o.h ≤ pd.maxHeight) ∧
    ((Layout3D.calculateSingleOrientation cd pd o).cartonPositions.map
      (fun p => (p.layer, p.gridX, p.gridY))).Nodup ∧
    (Layout3D.calculateMixedRowLayout cd pd st = some L →
      (∀ p ∈ L.cartonPositions,
        (p.rotation = "WLH" → p.x + cd.width ≤ pd.length ∧ p.y + cd.length ≤ pd.width) ∧
        (p.rotation = "LWH" → p.x + cd.length ≤ pd.length ∧ p.y + cd.width ≤ pd.width) ∧
        p.z + cd.height ≤ pd.maxHeight) ∧
      (L.cartonPositions.map (fun p => (p.layer, p.gridX, p.gridY))).Nodup) :=
  ⟨Layout3D.singleOrientation_bounds cd pd o hl hw hh,
   Layout3D.singleOrientation_nodup cd pd o,
   fun h => ⟨Layout3D.mixedRowLayout_bounds cd pd st L hcl hcw hch hpw h,
     Layout3D.mixedRowLayout_nodup cd pd st L h⟩⟩

unseal Rat.add Rat.mul Rat.sub Rat.inv in
/-- C9 witness: the invariants instantiated at scenario A's carton and
pallet with the as-given orientation. -/
theorem C9_placement_invariants_witness :
    (∀ p ∈ (Layout3D.calculateSingleOrientation (mkCartonDims scenarioACarton)
        (mkPalletDims scenarioAPallet)
        { l := 50, w := 30, h := 25, rotation := 0 }).cartonPositions,
      p.x + 50 ≤ (mkPalletDims scenarioAPallet).length ∧
      p.y + 30 ≤ (mkPalletDims scenarioAPallet).width ∧
      p.z + 25 ≤ (mkPalletDims scenarioAPallet).maxHeight) ∧
    ((Layout3D.calculateSingleOrientation (mkCartonDims scenarioACarton)
        (mkPalletDims scenarioAPallet)
        { l := 50, w := 30, h := 25, rotation := 0 }).cartonPositions.map
      (fun p => (p.layer, p.gridX, p.gridY))).Nodup ∧
    (Layout3D.calculateMixedRowLayout (mkCartonDims scenarioACarton)
        (mkPalletDims scenarioAPallet) scenarioASettings
        = some ⟨num 1, num 1, num 1, [], .mixed 0 0, num 1, num 1⟩ →
      (∀ p ∈ (⟨num 1, num 1, num 1, [], .mixed 0 0, num 1,
          num 1⟩ : PalletLayout).cartonPositions,
        (p.rotation = "WLH" → p.x + (mkCartonDims scenarioACarton).width
            ≤ (mkPalletDims scenarioAPallet).length ∧
          p.y + (mkCartonDims scenarioACarton).length
            ≤ (mkPalletDims scenarioAPallet).width) ∧
        (p.rotation = "LWH" → p.x + (mkCartonDims scenarioACarton).length
            ≤ (mkPalletDims scenarioAPallet).length ∧
          p.y + (mkCartonDims scenarioACarton).width
            ≤ (mkPalletDims scenarioAPallet).width) ∧
        p.z + (mkCartonDims scenarioACarton).height
          ≤ (mkPalletDims scenarioAPallet).maxHeight) ∧
      ((⟨num 1, num 1, num 1, [], .mixed 0 0, num 1,
          num 1⟩ : PalletLayout).cartonPositions.map
        (fun p => (p.layer, p.gridX, p.gridY))).Nodup) :=
  C9_placement_invariants_theorem (mkCartonDims scenarioACarton)
    (mkPalletDims scenarioAPallet) { l := 50, w := 30, h := 25, rotation := 0 }
    scenarioASettings ⟨num 1, num 1, num 1, [], .mixed 0 0, num 1, num 1⟩
    (by decide) (by decide) (by decide) (by decide) (by decide) (by decide) (by decide)
